import Mathlib

/-!
Verification of the natural-language specification of the zkevm-circuits
Keccak-f[1600] permutation circuit (src/keccak256/src/permutation/circuit.rs)
and of the AbsWordGadget (src/zkevm-circuits/.../abs_word.rs) against a
shallow Lean embedding.

The round-controller loop (`KeccakFConfig::assign_all`) is embedded directly
from `circuit.rs`.  The five transformers, the base-conversion engine, the
mixing gate and the flag gadget live in modules that are not part of the
provided sources, so they are modelled from the specification (spec.md §4),
following the digit-level encoding the spec describes: a lane is 64 stacked
digits (base-13 for the Theta domain, base-9 for the Xi/Iota domain), digit i
of a lane corresponding to bit i of the logical 64-bit word.
-/

namespace KeccakCircuit

/-- A lane: 64 digits, least-significant (bit 0) first. -/
abbrev Lane := List Nat

/-- A state: 25 lanes, lane (x,y) at flat index 5*x+y (the flattening used by
`circuit.rs`'s test, `in_state_fp[5 * x + y]`). -/
abbrev KState := List Lane

def zeroLane : Lane := List.replicate 64 0

/-- Modelled from the spec: `convert_b2_to_b13` / the fixed bijection of
spec.md §3 sending bit i of a 64-bit word to digit i of the lane
(binary digits {0,1} map to radix digits identically).  The same digit list
also serves as the base-9 encoding of a pure bit pattern. -/
def laneBitsOfWord (w : Nat) : Lane :=
  (List.range 64).map fun i => w / 2 ^ i % 2

/-- Digit-wise addition of two lanes (carry-free accumulation, spec.md §9). -/
def digitAdd (a b : Lane) : Lane := List.zipWith (· + ·) a b

/-- Multiply every digit of a lane by a constant. -/
def scaleLane (k : Nat) (a : Lane) : Lane := a.map fun d => k * d

/-- Cyclic left rotation of the 64 digit positions by `r`: digit i of the
result is digit (i - r mod 64) of the input, matching a left bit-rotation. -/
def rotLane (r : Nat) (l : Lane) : Lane :=
  l.drop (64 - r % 64) ++ l.take (64 - r % 64)

/-- The standard Keccak rotation offsets, row x at indices 5*x..5*x+4. -/
def rhoOffsets : List Nat :=
  [0, 36, 3, 41, 18,
   1, 44, 10, 45, 2,
   62, 6, 43, 15, 61,
   28, 55, 25, 21, 56,
   27, 20, 39, 8, 14]

/-- The standard Keccak round-constant table (24 entries). -/
def ROUND_CONSTANTS : List Nat :=
  [1, 32898,
   9223372036854808714, 9223372039002292224,
   32907, 2147483649,
   9223372039002292353, 9223372036854808585,
   138, 136,
   2147516425, 2147483658,
   2147516555, 9223372036854775947,
   9223372036854808713, 9223372036854808579,
   9223372036854808578, 9223372036854775936,
   32778, 9223372039002259466,
   9223372039002292353, 9223372036854808704,
   2147483649, 9223372039002292232]

/-- Modelled from the spec: the Theta transformer (`assign_theta`, missing
module `theta.rs`), spec.md §4.2: per lane (x,y), sum digit-wise the lane,
the five lanes of column x-1, and the five lanes of column x+1 rotated left
by one bit; each resulting digit stays below 13 on legal inputs. -/
def colSum (s : KState) (x : Nat) : Lane :=
  digitAdd (s.getD (5 * x) zeroLane)
    (digitAdd (s.getD (5 * x + 1) zeroLane)
      (digitAdd (s.getD (5 * x + 2) zeroLane)
        (digitAdd (s.getD (5 * x + 3) zeroLane) (s.getD (5 * x + 4) zeroLane))))

def theta13 (s : KState) : KState :=
  (List.range 25).map fun j =>
    let x := j / 5
    digitAdd (s.getD j zeroLane)
      (digitAdd (colSum s ((x + 4) % 5)) (rotLane 1 (colSum s ((x + 1) % 5))))

/-- Modelled from the spec: the Rho transformer
(`RhoConfig::assign_rotation_checks`, missing module `rho.rs`): the fixed
per-lane digit rotation, fused with the base-13 → base-9 conversion (each
base-13 accumulation digit is reduced to its parity bit), matching the
`circuit.rs` comment "Outputs in base-9 which is what Pi requires". -/
def rhoConv (s : KState) : KState :=
  (List.range 25).map fun j =>
    (rotLane (rhoOffsets.getD j 0) (s.getD j zeroLane)).map fun d => d % 2

/-- Modelled from the spec: the Pi transformer (`pi_gate_permutation`, missing
module `pi.rs`), spec.md §4.4: output lane (X,Y) is input lane ((X+3Y)%5, X),
equivalently output (y, 2x+3y) = input (x,y). -/
def piPerm (s : KState) : KState :=
  (List.range 25).map fun j =>
    let X := j / 5
    let Y := j % 5
    s.getD (5 * ((X + 3 * Y) % 5) + X) zeroLane

/-- Modelled from the spec: the Xi (Chi) transformer (`assign_xi`, missing
module `xi.rs`), spec.md §4.5: per digit the fixed polynomial
2*a + b + 3*c over the three lanes (x,y), (x+1,y), (x+2,y) in base-9;
the output bit is recovered by the 4-periodic lookup `convB9Coef`. -/
def xi9 (s : KState) : KState :=
  (List.range 25).map fun j =>
    let x := j / 5
    let y := j % 5
    digitAdd (scaleLane 2 (s.getD j zeroLane))
      (digitAdd (s.getD (5 * ((x + 1) % 5) + y) zeroLane)
        (scaleLane 3 (s.getD (5 * ((x + 2) % 5) + y) zeroLane)))

/-- Modelled from the spec: the Iota transformer in the base-9 domain
(`IotaConfig::assign_round_b9`, missing module `iota.rs`), spec.md §4.6:
digit-wise addition of the round constant, pre-encoded in base-9 with each
constant bit carried as the digit 2*bit (the slot that flips the parity class
of the 4-periodic base-9 bit table), onto lane (0,0) only. -/
def iotaB9 (i : Nat) (s : KState) : KState :=
  s.set 0 (digitAdd (s.getD 0 zeroLane)
    (scaleLane 2 (laneBitsOfWord (ROUND_CONSTANTS.getD i 0))))

/-- Modelled from the spec: the base-9 → bit lookup of the conversion engine:
a base-9 accumulation digit d represents the logical bit 1 exactly when
d mod 4 ∈ {2,3} (the exhaustive table of spec.md §4.5/§4.1). -/
def convB9Coef (d : Nat) : Nat := if d % 4 ≥ 2 then 1 else 0

/-- Modelled from the spec: the Digit-Base Conversion Engine invocation
(`BaseConversionConfig::assign_state`, missing module `base_conversion.rs`):
convert a whole base-9 state back to canonical base-13 (bit) digits. -/
def convB9to13 (s : KState) : KState := s.map (List.map convB9Coef)

/-- Modelled from the spec: the Iota step in base-13 used by the mixing gate
(`IotaB13`): plain digit-wise addition of the round-constant bits. -/
def iotaB13 (i : Nat) (s : KState) : KState :=
  s.set 0 (digitAdd (s.getD 0 zeroLane) (laneBitsOfWord (ROUND_CONSTANTS.getD i 0)))

/-- Modelled from the spec: the absorb step of the mixing gate, spec.md §4.8:
digit-add (in base-9) each of the 17 rate lanes with the corresponding
next-block lane, each block bit entering as the digit 2*bit. -/
def absorb (next : List Nat) (s : KState) : KState :=
  (List.range 25).map fun j =>
    if j < 17 then
      digitAdd (s.getD j zeroLane) (scaleLane 2 (laneBitsOfWord (next.getD j 0)))
    else s.getD j zeroLane

/-- Modelled from the spec: the Mixing Gate (`MixingConfig::assign_state`,
missing module `mixing.rs`).  Per the `circuit.rs` test comments: with the
flag set it performs Absorb, then the base conversion, then IotaB13 with the
last round constant; without the flag it performs IotaB9 with the last round
constant (completing round 23's deferred Iota). -/
def mixStage (flag : Bool) (next : List Nat) (s : KState) : KState :=
  if flag then iotaB13 23 (convB9to13 (absorb next s)) else iotaB9 23 s

/-- The stages `KeccakFConfig::assign_all` runs, as an explicit alphabet so
that the controller's schedule (circuit.rs lines 87-121) can be stated and
audited as data. -/
inductive KOp where
  | theta
  | rho
  | pi
  | xi
  | iota (i : Nat)
  | conv
  | mix
deriving DecidableEq

/-- `PERMUTATION` from `common.rs` (not in the provided sources; spec.md §3
fixes 24 rounds). -/
def PERMUTATION : Nat := 24

/-- Direct transcription of the body of the `for round_idx in 0..PERMUTATION`
loop of `assign_all`: theta, rho (with its conversion), pi, xi, and then —
unless the loop breaks at `round_idx == PERMUTATION - 1` — iota_b9 with the
current round index followed by the base conversion back to base-13. -/
def codeRoundOps (i : Nat) : List KOp :=
  [KOp.theta, KOp.rho, KOp.pi, KOp.xi] ++
    (if i = PERMUTATION - 1 then [] else [KOp.iota i, KOp.conv])

/-- The complete schedule of `assign_all`: the 24 loop iterations followed by
the mixing stage. -/
def assignAllOps : List KOp :=
  ((List.range PERMUTATION).map codeRoundOps).flatten ++ [KOp.mix]

/-- Interpretation of a stage name as a state transformer. -/
def stageDenote (flag : Bool) (next : List Nat) : KOp → KState → KState
  | KOp.theta => theta13
  | KOp.rho => rhoConv
  | KOp.pi => piPerm
  | KOp.xi => xi9
  | KOp.iota i => iotaB9 i
  | KOp.conv => convB9to13
  | KOp.mix => mixStage flag next

/-- The permutation circuit: `KeccakFConfig::assign_all` (circuit.rs 77-122),
the 24-round controller followed by the mixing gate. -/
def assign_all (s : KState) (flag : Bool) (next : List Nat) : KState :=
  assignAllOps.foldl (fun a op => stageDenote flag next op a) s

/-- The 24 controller rounds alone (everything `assign_all` does before
handing the state to the mixing gate). -/
def permRounds (s : KState) : KState :=
  (((List.range PERMUTATION).map codeRoundOps).flatten).foldl
    (fun a op => stageDenote false [] op a) s

/-- One controller round as `assign_all` executes it: the operations of
`codeRoundOps i` applied in order (none of them is the mixing stage, so the
flag and next-block arguments are irrelevant and fixed). -/
def applyRound (i : Nat) (s : KState) : KState :=
  (codeRoundOps i).foldl (fun a op => stageDenote false [] op a) s

/-- A lane written as a single literal: digit i of the lane is the base-16
digit i of the number (digits never reach 16 in either alphabet). -/
def laneOfPacked (n : Nat) : Lane := (List.range 64).map fun i => n / 16 ^ i % 16

/-- A state written as 25 packed lane literals. -/
def stateOfPacked (l : List Nat) : KState := l.map laneOfPacked

/-- Decode a base-13 lane to its logical bits (digit parity). -/
def laneBits13 (l : Lane) : Lane := l.map fun d => d % 2

/-- Decode a base-9 lane to its logical bits (the lookup table). -/
def laneBits9 (l : Lane) : Lane := l.map convB9Coef

/-- Decode a whole base-9 state to bits. -/
def stateBits9 (s : KState) : KState := s.map laneBits9

/-- Bit-wise XOR of two bit lanes. -/
def xorBits (a b : Lane) : Lane := List.zipWith (fun x y => (x + y) % 2) a b

end KeccakCircuit

namespace KeccakRef

/-!
The reference (non-circuit) Keccak-f[1600] permutation on 64-bit words,
lane (x,y) at flat index 5*x+y, used as the mathematical yardstick the spec
demands (spec.md §6: "fixture/mock tooling instead drives a full reference
(non-circuit) Keccak implementation").
-/

def M64 : Nat := 2 ^ 64

/-- Left bit-rotation of a 64-bit word. -/
def rotWord (r : Nat) (w : Nat) : Nat :=
  (w * 2 ^ (r % 64)) % M64 + w / 2 ^ (64 - r % 64)

/-- Bitwise complement within 64 bits. -/
def notW (w : Nat) : Nat := w ^^^ (M64 - 1)

def colParity (s : List Nat) (x : Nat) : Nat :=
  s.getD (5 * x) 0 ^^^ s.getD (5 * x + 1) 0 ^^^ s.getD (5 * x + 2) 0 ^^^
    s.getD (5 * x + 3) 0 ^^^ s.getD (5 * x + 4) 0

def thetaRef (s : List Nat) : List Nat :=
  (List.range 25).map fun j =>
    let x := j / 5
    s.getD j 0 ^^^ colParity s ((x + 4) % 5) ^^^ rotWord 1 (colParity s ((x + 1) % 5))

def rhoRef (s : List Nat) : List Nat :=
  (List.range 25).map fun j =>
    rotWord (KeccakCircuit.rhoOffsets.getD j 0) (s.getD j 0)

def piRef (s : List Nat) : List Nat :=
  (List.range 25).map fun j =>
    let X := j / 5
    let Y := j % 5
    s.getD (5 * ((X + 3 * Y) % 5) + X) 0

def chiRef (s : List Nat) : List Nat :=
  (List.range 25).map fun j =>
    let x := j / 5
    let y := j % 5
    s.getD j 0 ^^^
      (notW (s.getD (5 * ((x + 1) % 5) + y) 0) &&& s.getD (5 * ((x + 2) % 5) + y) 0)

def iotaRef (i : Nat) (s : List Nat) : List Nat :=
  s.set 0 (s.getD 0 0 ^^^ KeccakCircuit.ROUND_CONSTANTS.getD i 0)

def roundRef (s : List Nat) (i : Nat) : List Nat :=
  iotaRef i (chiRef (piRef (rhoRef (thetaRef s))))

/-- The reference Keccak-f[1600] permutation: 24 rounds. -/
def keccakF (s : List Nat) : List Nat := (List.range 24).foldl roundRef s

end KeccakRef

namespace KeccakCircuit

/-- The input of the concrete scenario of spec.md §8: all lanes zero except
lane (0,0) = 1 (bit 0 set). -/
def c1InputWords : List Nat := 1 :: List.replicate 24 0

/-- Modelled from the spec: `convert_b2_to_b13` (used by the `circuit.rs`
test to prepare the input state; its module `arith_helpers.rs` is not in the
provided sources): encode a 64-bit word into the base-13 alphabet through the
fixed bijection sending bit i to digit i. -/
def convert_b2_to_b13 (w : Nat) : Lane := laneBitsOfWord w

/-- The externally supplied input state of the circuit, lane-wise base-13
encoded, exactly as the `circuit.rs` test builds `in_state_fp`. -/
def encodeStateB13 (ws : List Nat) : KState := ws.map convert_b2_to_b13

/-- The constraint relation of the circuit, as the spec's error model
describes it (spec.md §4.8, §7): the witness trace supplies every
intermediate state, each stage's relation ties consecutive states, and the
declared output must equal the last one.  `chainRel fs s out` says that a
witness assignment exists for the chain of stage relations `fs` starting
from `s` and ending in the claimed `out`. -/
def chainRel : List (KState → KState) → KState → KState → Prop
  | [], s, out => out = s
  | f :: fs, s, out => ∃ t, t = f s ∧ chainRel fs t out

/-- The full circuit relation: a satisfying witness trace through all stages
of `assign_all` (24 rounds plus mixing) from the declared input to the
declared output. -/
def circuitRel (sIn : KState) (flag : Bool) (next : List Nat) (out : KState) : Prop :=
  chainRel (assignAllOps.map (stageDenote flag next)) sIn out

/-- Modelled from the spec: the boolean constraint that
`FlagConfig::configure` (missing module `flag.rs`) places on the mixing flag,
spec.md §4.8: "First constrains MixingFlag to be boolean (value² = value)". -/
def mixingFlagConstraint {F : Type _} [Field F] (f : F) : Prop := f * f = f

/-- The all-zero 25-lane base-9 state, used as a concrete round-23 output. -/
def zeroState : KState := List.replicate 25 zeroLane

end KeccakCircuit

namespace AbsWord

/-!
Shallow embedding of `AbsWordGadget` (src/zkevm-circuits/src/evm_circuit/
util/math_gadget/abs_word.rs).  A 256-bit word is its 32 little-endian byte
cells.  The helper gadgets it composes (`LtGadget`, `AddWordsGadget`,
`from_bytes`) are not in the provided sources and are modelled from their
use: `from_bytes` over 16 byte cells is the little-endian value (exact over
the integers, since 2^128 is far below the field size); the `LtGadget`
output is a boolean cell equal to the comparison result; the two carries of
`AddWordsGadget` are boolean-constrained.  The constraint
`is_neg * sum == 0` forces the random linear combination of `sum`'s bytes to
vanish, which (bytes being range-checked) means every byte of `sum` is zero,
i.e. its integer value is zero.
-/

/-- Little-endian value of a list of byte cells. -/
def byteVal : List Nat → Nat
  | [] => 0
  | b :: bs => b + 256 * byteVal bs

/-- The cells produced by `cb.query_word()`: 32 byte-range-checked cells. -/
def isBytes (l : List Nat) : Prop := l.length = 32 ∧ ∀ b ∈ l, b < 256

/-- `from_bytes::expr(&w.cells[0..16])`. -/
def loVal (l : List Nat) : Nat := byteVal (l.take 16)

/-- `from_bytes::expr(&w.cells[16..32])`. -/
def hiVal (l : List Nat) : Nat := byteVal (l.drop 16)

/-- The 256-bit value of a word. -/
def wordVal (l : List Nat) : Nat := byteVal l

/-- Little-endian byte decomposition of a number into `k` bytes. -/
def natBytes : Nat → Nat → List Nat
  | 0, _ => []
  | k + 1, n => n % 256 :: natBytes k (n / 256)

/-- The constraint system of `AbsWordGadget::construct` (abs_word.rs 29-67),
with `sum`, the two carries of the `AddWordsGadget` and the `LtGadget`
output existentially quantified as the prover-supplied witness cells:
byte-range checks on `sum`, boolean carries, `is_neg = (127 < x[31])`
(LtGadget), the two `(1 - is_neg) * (x_abs_half - x_half)` constraints, the
two half-word addition identities `x + x_abs = sum + carry * 2^128`, and the
two negative-branch constraints `is_neg * sum = 0`,
`is_neg * (1 - carry_hi) = 0`. -/
def AbsWordRel (x xabs : List Nat) : Prop :=
  ∃ s : List Nat, ∃ cl ch neg : Nat,
    s.length = 32 ∧ (∀ b ∈ s, b < 256) ∧
    cl ≤ 1 ∧ ch ≤ 1 ∧ neg ≤ 1 ∧
    (neg = 1 ↔ 127 < x.getD 31 0) ∧
    ((1 : ℤ) - neg) * ((loVal xabs : ℤ) - loVal x) = 0 ∧
    ((1 : ℤ) - neg) * ((hiVal xabs : ℤ) - hiVal x) = 0 ∧
    ((loVal x : ℤ) + loVal xabs) = (loVal s : ℤ) + cl * 2 ^ 128 ∧
    ((hiVal x : ℤ) + hiVal xabs + cl) = (hiVal s : ℤ) + ch * 2 ^ 128 ∧
    (neg : ℤ) * (wordVal s : ℤ) = 0 ∧
    (neg : ℤ) * (1 - (ch : ℤ)) = 0

end AbsWord

namespace KeccakCircuit


/-!
Intermediate states of the concrete C1 run, one packed literal state per
controller round (generated by evaluating the model itself), so that the
kernel checks the 24-round computation one round at a time.
-/

theorem c1_round_0 :
    applyRound 0 (c1InputWords.map laneBitsOfWord) =
      stateOfPacked [0x0, 0x0, 0x10, 0x10000000000000000010000000000, 0x10000000000000000000000000000000000000000, 0x100000000000000000000000000000000000000000000, 0x1000000000000000000000001000000000000000000000, 0x1000000000, 0x0, 0x0, 0x1000000000000000, 0x0, 0x0, 0x10000000000, 0x10000000000000000000000000000000000000100, 0x1, 0x1000000000000000000000000000000000000000000000, 0x1000000010, 0x10000000000000000000000000000, 0x0, 0x100000000000000000000000000001000000000000000, 0x1000000000000000000000, 0x0, 0x0, 0x100] := by
  decide

theorem c1_round_1 :
    applyRound 1 (stateOfPacked [0x0, 0x0, 0x10, 0x10000000000000000010000000000, 0x10000000000000000000000000000000000000000, 0x100000000000000000000000000000000000000000000, 0x1000000000000000000000001000000000000000000000, 0x1000000000, 0x0, 0x0, 0x1000000000000000, 0x0, 0x0, 0x10000000000, 0x10000000000000000000000000000000000000100, 0x1, 0x1000000000000000000000000000000000000000000000, 0x1000000010, 0x10000000000000000000000000000, 0x0, 0x100000000000000000000000000001000000000000000, 0x1000000000000000000000, 0x0, 0x0, 0x100]) =
      stateOfPacked [0x110000011000000000000000000001111000000000010010000111, 0x100100110000100000011010011000001000010001000100000, 0x101001010000010000110100000000100001100001010110, 0x110000100000001000101000000111100001110000010100110010000, 0x1000000000000101000111111000000000001000000110010010000110011001, 0x11000011000010101010000011000010000010001100000000000100000110, 0x110000011010000100000000010100000000100000000001000000010, 0x111110000000000011100000001000000010111000011010000000, 0x11111000001000010100000101000000000001000001000000000000000000, 0x1100011100000000000010000000000010000000111000000010000011100010, 0x100010110000001101000000000000000001100000001100000100000001, 0x100000000000011100011100010000000000111000000000010000011110000, 0x1100010000000000100000101000111000001100000100000000000001000011, 0x10000001100000000000110000100000100001110000110100110000100, 0x101000001111000000001000000000101010011000000010000, 0x10000000000010011110000011000010000001111000000000010000000000, 0x10000110000101010100000100000011010000011000000000000000010000, 0x100010001001100011000000100000000010000001111100010100, 0x11100110000000000101000100000000111001000000110000000000010000, 0x100000100000000000110000000000000001000111010000000000110100001, 0x1100001000000100011000000000000000000100100001100000100000010, 0x110000000000011000011000010000000100100011101000000000011000010, 0x1100010000011100000000011000101000011000000100011000000110000001, 0x101000001000010000000010000100000000000001110100000110000100, 0x11000000000000011000000000011000000000001000011000001101010] := by
  decide

theorem c1_round_2 :
    applyRound 2 (stateOfPacked [0x110000011000000000000000000001111000000000010010000111, 0x100100110000100000011010011000001000010001000100000, 0x101001010000010000110100000000100001100001010110, 0x110000100000001000101000000111100001110000010100110010000, 0x1000000000000101000111111000000000001000000110010010000110011001, 0x11000011000010101010000011000010000010001100000000000100000110, 0x110000011010000100000000010100000000100000000001000000010, 0x111110000000000011100000001000000010111000011010000000, 0x11111000001000010100000101000000000001000001000000000000000000, 0x1100011100000000000010000000000010000000111000000010000011100010, 0x100010110000001101000000000000000001100000001100000100000001, 0x100000000000011100011100010000000000111000000000010000011110000, 0x1100010000000000100000101000111000001100000100000000000001000011, 0x10000001100000000000110000100000100001110000110100110000100, 0x101000001111000000001000000000101010011000000010000, 0x10000000000010011110000011000010000001111000000000010000000000, 0x10000110000101010100000100000011010000011000000000000000010000, 0x100010001001100011000000100000000010000001111100010100, 0x11100110000000000101000100000000111001000000110000000000010000, 0x100000100000000000110000000000000001000111010000000000110100001, 0x1100001000000100011000000000000000000100100001100000100000010, 0x110000000000011000011000010000000100100011101000000000011000010, 0x1100010000011100000000011000101000011000000100011000000110000001, 0x101000001000010000000010000100000000000001110100000110000100, 0x11000000000000011000000000011000000000001000011000001101010]) =
      stateOfPacked [0x1010100000001000110011111101101101100010100011111110111001101111, 0x1000011000101011011111011001011100011111100110110110010011100111, 0x1000000100111100000011111010101000010100010001100111101100111, 0x11011100001011101001001010111011100111000100001011100001011001, 0x11010111000010000100001001100101011011001100001010101010001, 0x1100011101011010111110010001111000100011101110001010110001111100, 0x11100010001010100011011001111001111100011000011110010010011110, 0x1000100101001111000101100110111000100010010010101011111101101110, 0x1000010111001001100000101010001000101011000001110001111010111111, 0x1011010001100000010011000111101001011100001010110001110011101101, 0x10110001001000011111101101000111111001011001110011110000111001, 0x1000001011000001011000111101011011111011001110111000110110100001, 0x100100100001110001101101000100011011010000110000110110110000010, 0x1111110001000001110010010011101011011111001110110111011010000001, 0x1010001101111011011000101111011000101101111001100101100110101111, 0x1100010001010010100101101111000111001110100101001001010010, 0x100011111110101111000001110110111101100010110010000000010011, 0x100011111001010001010001101000101111010001001101100110101110001, 0x1101110000011110011111111001101011011111110001000101111100011001, 0x1010001000000110110001001101011001111011110110001001000100101100, 0x10010010001001011110010111111001010100111010110001111100001001, 0x1011011111010011000101100011101101101101000000110001010000001011, 0x101010101100010100100111100101101101011100010101011001011101110, 0x101100001111101000001011011110001010000011111001011111001111100, 0x1110111101000000010010000100001100111001011000000001000111110001] := by
  decide

theorem c1_round_3 :
    applyRound 3 (stateOfPacked [0x1010100000001000110011111101101101100010100011111110111001101111, 0x1000011000101011011111011001011100011111100110110110010011100111, 0x1000000100111100000011111010101000010100010001100111101100111, 0x11011100001011101001001010111011100111000100001011100001011001, 0x11010111000010000100001001100101011011001100001010101010001, 0x1100011101011010111110010001111000100011101110001010110001111100, 0x11100010001010100011011001111001111100011000011110010010011110, 0x1000100101001111000101100110111000100010010010101011111101101110, 0x1000010111001001100000101010001000101011000001110001111010111111, 0x1011010001100000010011000111101001011100001010110001110011101101, 0x10110001001000011111101101000111111001011001110011110000111001, 0x1000001011000001011000111101011011111011001110111000110110100001, 0x100100100001110001101101000100011011010000110000110110110000010, 0x1111110001000001110010010011101011011111001110110111011010000001, 0x1010001101111011011000101111011000101101111001100101100110101111, 0x1100010001010010100101101111000111001110100101001001010010, 0x100011111110101111000001110110111101100010110010000000010011, 0x100011111001010001010001101000101111010001001101100110101110001, 0x1101110000011110011111111001101011011111110001000101111100011001, 0x1010001000000110110001001101011001111011110110001001000100101100, 0x10010010001001011110010111111001010100111010110001111100001001, 0x1011011111010011000101100011101101101101000000110001010000001011, 0x101010101100010100100111100101101101011100010101011001011101110, 0x101100001111101000001011011110001010000011111001011111001111100, 0x1110111101000000010010000100001100111001011000000001000111110001]) =
      stateOfPacked [0x1101011000110010100101011101010011011110100001101001001111110110, 0x1100100111011100111110101101101001100101110110100110111101001101, 0x1111001100100000110110110011100000000000110110110010010101110001, 0x110011010111011100011011110111001011010100010000101111011101001, 0x100101111000001000101001100010000101110101111011000001001111011, 0x1010101010000001010000000100010001101000111100010101110010111001, 0x1111010010110110111011111101111000110101011011010100000110101, 0x110110011000011011111011111110000000100101000101001101100001001, 0x1100100111111001110111111110111010100100000100010010010010100011, 0x1111001000101011001011010010111110011000111000011001010001111101, 0x1000101101010110101110011101110110110010100001100110110001001001, 0x100101001111011100001111100110100100001010000000111110110010011, 0x110000001111100100101111010100110001110000110111011100110010110, 0x11110101111100000100011010000001001110000101001001110010110, 0x110001000111001011101001101111100110001011011100000010010011001, 0x1111000101110000010101000111000001011101011100001101011000100001, 0x100101110110111001001110011000010101010111101100000001110111011, 0x111110011001110001001100011001100101010110111101011011111010000, 0x1111011101011000110000111001000100110000111000101010111100110111, 0x110001111001010000010011000010011000010101010001110010111100010, 0x10100101100101010111101010111110001101010011110111110010001101, 0x110011000000100111001011010111111100101110010000110100111011111, 0x1010110001111001000100010101100110000110000101110111111101001010, 0x1100001111111000101000100010011111110011000101101011110101001100, 0x1001101010011010010001111100100010111011100010000011110010001011] := by
  decide

theorem c1_round_4 :
    applyRound 4 (stateOfPacked [0x1101011000110010100101011101010011011110100001101001001111110110, 0x1100100111011100111110101101101001100101110110100110111101001101, 0x1111001100100000110110110011100000000000110110110010010101110001, 0x110011010111011100011011110111001011010100010000101111011101001, 0x100101111000001000101001100010000101110101111011000001001111011, 0x1010101010000001010000000100010001101000111100010101110010111001, 0x1111010010110110111011111101111000110101011011010100000110101, 0x110110011000011011111011111110000000100101000101001101100001001, 0x1100100111111001110111111110111010100100000100010010010010100011, 0x1111001000101011001011010010111110011000111000011001010001111101, 0x1000101101010110101110011101110110110010100001100110110001001001, 0x100101001111011100001111100110100100001010000000111110110010011, 0x110000001111100100101111010100110001110000110111011100110010110, 0x11110101111100000100011010000001001110000101001001110010110, 0x110001000111001011101001101111100110001011011100000010010011001, 0x1111000101110000010101000111000001011101011100001101011000100001, 0x100101110110111001001110011000010101010111101100000001110111011, 0x111110011001110001001100011001100101010110111101011011111010000, 0x1111011101011000110000111001000100110000111000101010111100110111, 0x110001111001010000010011000010011000010101010001110010111100010, 0x10100101100101010111101010111110001101010011110111110010001101, 0x110011000000100111001011010111111100101110010000110100111011111, 0x1010110001111001000100010101100110000110000101110111111101001010, 0x1100001111111000101000100010011111110011000101101011110101001100, 0x1001101010011010010001111100100010111011100010000011110010001011]) =
      stateOfPacked [0x1010101011000101111001110111011101111101100011100100110000010101, 0x1000001111110001010001111111010110010100010101001011100111001000, 0x1100110101110010101000111111110111011010010000110100110010000001, 0x1000001011000001110110101111000110011110110001101110110011011110, 0x10001101011011110101010110100010011110101000010011101010000001, 0x1010100101111110100001011010001001010100110001001111000101111111, 0x111001001111010010111100010010010110100100110011101101010010, 0x1000111001010111110001011101101111010101110101111110110010001, 0x1110110010010111110000101010101101011110110100011010011011010010, 0x1010010111101100110000100111001010011101011001010111010111010101, 0x1000100110011011010110110000010101101011010111100010100010101011, 0x1111111010110101100001110101111001000000011000111001000110011011, 0x1110100000011111111001100000011001000101110110010110011100000001, 0x1110111101111011100010110000111001111010100000010001110010010011, 0x1111100011101110010010100111011010100001011010110000011100010001, 0x1111111110001011000011001100100010101001011111000110100101100100, 0x101100010101111010100001101010110101001100111101110110000101000, 0x111101000110010111010000001111100011100111010110001000010010, 0x1101011000010101011000101100000000001010101111011001000000011101, 0x10010100001110000001110001010100010011111001101011101110100000, 0x11010110011111110000101111011100000111110010010110001011111011, 0x1000100010000101000100110001001000010100001000111101011101101101, 0x1110101101010110110100101011100101011100111100000110111111011111, 0x110001011000001110110011100001111111011100000101100011000001101, 0x110100011100010111110000100111101110111100001110111101111111110] := by
  decide

theorem c1_round_5 :
    applyRound 5 (stateOfPacked [0x1010101011000101111001110111011101111101100011100100110000010101, 0x1000001111110001010001111111010110010100010101001011100111001000, 0x1100110101110010101000111111110111011010010000110100110010000001, 0x1000001011000001110110101111000110011110110001101110110011011110, 0x10001101011011110101010110100010011110101000010011101010000001, 0x1010100101111110100001011010001001010100110001001111000101111111, 0x111001001111010010111100010010010110100100110011101101010010, 0x1000111001010111110001011101101111010101110101111110110010001, 0x1110110010010111110000101010101101011110110100011010011011010010, 0x1010010111101100110000100111001010011101011001010111010111010101, 0x1000100110011011010110110000010101101011010111100010100010101011, 0x1111111010110101100001110101111001000000011000111001000110011011, 0x1110100000011111111001100000011001000101110110010110011100000001, 0x1110111101111011100010110000111001111010100000010001110010010011, 0x1111100011101110010010100111011010100001011010110000011100010001, 0x1111111110001011000011001100100010101001011111000110100101100100, 0x101100010101111010100001101010110101001100111101110110000101000, 0x111101000110010111010000001111100011100111010110001000010010, 0x1101011000010101011000101100000000001010101111011001000000011101, 0x10010100001110000001110001010100010011111001101011101110100000, 0x11010110011111110000101111011100000111110010010110001011111011, 0x1000100010000101000100110001001000010100001000111101011101101101, 0x1110101101010110110100101011100101011100111100000110111111011111, 0x110001011000001110110011100001111111011100000101100011000001101, 0x110100011100010111110000100111101110111100001110111101111111110]) =
      stateOfPacked [0x100100110101010001010011010110110001000111010101100000011011001, 0x1101100100000011101001100011100100011011100001010000100100000101, 0x1111010111110111101101101001111000111000010010100110101001110101, 0x1110010011011000100000110000110110010011001011011011000011111010, 0x11000000110000111111000010110101111010000000010001110101110101, 0x1000110111110111011101010001110110111000000001101101110101011110, 0x1110100101001000000010011011110001011000100001010100010011000010, 0x1111000111011010101101110101010110001100011110111011100110011101, 0x1001110111000111110100100001001010011001011100001001000011011010, 0x11011100110100010010001011010100111100111001010101011101100101, 0x10100110000011111011110000111111101000110011101000110001010110, 0x1110011011001110011010011001001111011111101100000011110101101010, 0x110000111100011011100101100000110101011010111000111100110000111, 0x11100100011001010111001011110001100101011001110101000110100100, 0x1001010101011110010111000010000111001001110001011101101111100001, 0x1000000000101111101100001001101101011011011111001100110100101011, 0x111010010100101110000001001011111001100001101000011000110, 0x1001000110110000100101100110111001010000100110001100001010010111, 0x11101010001110011100011100100011010110111111010111001001001010, 0x1110010010011110001011100100001111110100001010011100001001100110, 0x1110010100000011011111101001011101111001010100101111001000101111, 0x1011011001101011100011110011100011100101110011111110101100001111, 0x110111011001010101011010101011110010101100000110001000101011010, 0x111110000010100000001001110101110011001111000001101010010110001, 0x1000001001100000111000011010110100010010110101100000010011000101] := by
  decide

theorem c1_round_6 :
    applyRound 6 (stateOfPacked [0x100100110101010001010011010110110001000111010101100000011011001, 0x1101100100000011101001100011100100011011100001010000100100000101, 0x1111010111110111101101101001111000111000010010100110101001110101, 0x1110010011011000100000110000110110010011001011011011000011111010, 0x11000000110000111111000010110101111010000000010001110101110101, 0x1000110111110111011101010001110110111000000001101101110101011110, 0x1110100101001000000010011011110001011000100001010100010011000010, 0x1111000111011010101101110101010110001100011110111011100110011101, 0x1001110111000111110100100001001010011001011100001001000011011010, 0x11011100110100010010001011010100111100111001010101011101100101, 0x10100110000011111011110000111111101000110011101000110001010110, 0x1110011011001110011010011001001111011111101100000011110101101010, 0x110000111100011011100101100000110101011010111000111100110000111, 0x11100100011001010111001011110001100101011001110101000110100100, 0x1001010101011110010111000010000111001001110001011101101111100001, 0x1000000000101111101100001001101101011011011111001100110100101011, 0x111010010100101110000001001011111001100001101000011000110, 0x1001000110110000100101100110111001010000100110001100001010010111, 0x11101010001110011100011100100011010110111111010111001001001010, 0x1110010010011110001011100100001111110100001010011100001001100110, 0x1110010100000011011111101001011101111001010100101111001000101111, 0x1011011001101011100011110011100011100101110011111110101100001111, 0x110111011001010101011010101011110010101100000110001000101011010, 0x111110000010100000001001110101110011001111000001101010010110001, 0x1000001001100000111000011010110100010010110101100000010011000101]) =
      stateOfPacked [0x111011101010100000100001011000000111101100000110100011101101011, 0x110111010010110110100111101110011000100110111001111101101100010, 0x1111010100100101001001010010111101111110001101100100110100101010, 0x1011010001011000000111001000000000100010000000011001110111110011, 0x1010101010011010101110000100100010010011001010101110001001110011, 0x1000100001001001110001000101001011011010011001011100111010110110, 0x1111001000000001011111001101110110001011011101011010001011101011, 0x111100111011111010011110011010110100101110001110001110010000001, 0x1011011111101001111001110111011001101011100010010001001000001000, 0x10011110001100010110110001100001011111101001011111000010010101, 0x1010101001000101100111100011011101111111001110110101011011110001, 0x110011100011000101100011100001010101110010111110000000101010, 0x11111001011001101110101110000011100000001100011111100100001001, 0x111100100000011101001000001010100000010010010010010110100110110, 0x1100100010110001101011001010110111000111011001001110110101001011, 0x101101110101100010001110001010010010101001111111010110101110101, 0x1101010000100001001111100011001111111101011011010001101111, 0x100011001000010110101110100110011100100101001110010011011010001, 0x1000010010001101001000000010100110100010110101100110111011111, 0x1101111111100111000100000011000101000101011110001010010000000110, 0x110100001000000111111010111001101011111100101111010101111000100, 0x1101011111001111010101100011000001011100100101000001100011010010, 0x1001010000001001101000011101100010101001010111110010000101111010, 0x1000011001000000001110011101111110100011010110101011101000110000, 0x1110100000111110111110111110000110011001001100110001001111110] := by
  decide

theorem c1_round_7 :
    applyRound 7 (stateOfPacked [0x111011101010100000100001011000000111101100000110100011101101011, 0x110111010010110110100111101110011000100110111001111101101100010, 0x1111010100100101001001010010111101111110001101100100110100101010, 0x1011010001011000000111001000000000100010000000011001110111110011, 0x1010101010011010101110000100100010010011001010101110001001110011, 0x1000100001001001110001000101001011011010011001011100111010110110, 0x1111001000000001011111001101110110001011011101011010001011101011, 0x111100111011111010011110011010110100101110001110001110010000001, 0x1011011111101001111001110111011001101011100010010001001000001000, 0x10011110001100010110110001100001011111101001011111000010010101, 0x1010101001000101100111100011011101111111001110110101011011110001, 0x110011100011000101100011100001010101110010111110000000101010, 0x11111001011001101110101110000011100000001100011111100100001001, 0x111100100000011101001000001010100000010010010010010110100110110, 0x1100100010110001101011001010110111000111011001001110110101001011, 0x101101110101100010001110001010010010101001111111010110101110101, 0x1101010000100001001111100011001111111101011011010001101111, 0x100011001000010110101110100110011100100101001110010011011010001, 0x1000010010001101001000000010100110100010110101100110111011111, 0x1101111111100111000100000011000101000101011110001010010000000110, 0x110100001000000111111010111001101011111100101111010101111000100, 0x1101011111001111010101100011000001011100100101000001100011010010, 0x1001010000001001101000011101100010101001010111110010000101111010, 0x1000011001000000001110011101111110100011010110101011101000110000, 0x1110100000111110111110111110000110011001001100110001001111110]) =
      stateOfPacked [0x110010001111011011000110111000110010111010101001100110000010011, 0x11111011101001001110110111101111110110001101110011001001011011, 0x1000011011010101111000101101011111110011111101001011011011110110, 0x1000111010100110111011010000010011101010111010110110010111100111, 0x110111010011001101101011111001000001000010101111001101100100101, 0x1010001101110001111100111010000111100110100001001000100000100110, 0x111101101010011111101111110110111101000010111000100010011010111, 0x10000000000111011110000100001001101011010101111111011000011110, 0x1010011010101001011100000011100110010010101100101000000001000111, 0x110011111100111011011110011010101010101110101100010111011100101, 0x1001110010001101011010000101000011011101110000000010110111110011, 0x1011111100000010101000011111011000101110000010010000111001111110, 0x1101101001011110101101001000110001010101000101011000101000100110, 0x10100101100111010000111101000101100100001000110010001101101010, 0x101101010111100000001110110000111000101111100111010100110000101, 0x100010000001001101101011101101001000010101111110010101000100010, 0x101000010011111100010011100101100111010001111000110100001010000, 0x1001001010010101000110010000100101010100010001010110110110110011, 0x101010000010100111010000001001010000001011010010010011011110000, 0x1100111111100110101001010100010011111010110010000011100100110110, 0x111110110111111101000000011000101101010111000010100100000000101, 0x1111111000011100100100000100111000011011011010000011111011100001, 0x10111101100110101100101111011000111011010010111111011111110110, 0x1001110010001110001110011100100100000111001011100101010010101111, 0x1001110011101001111111101111010010111111011100011010000101110000] := by
  decide

theorem c1_round_8 :
    applyRound 8 (stateOfPacked [0x110010001111011011000110111000110010111010101001100110000010011, 0x11111011101001001110110111101111110110001101110011001001011011, 0x1000011011010101111000101101011111110011111101001011011011110110, 0x1000111010100110111011010000010011101010111010110110010111100111, 0x110111010011001101101011111001000001000010101111001101100100101, 0x1010001101110001111100111010000111100110100001001000100000100110, 0x111101101010011111101111110110111101000010111000100010011010111, 0x10000000000111011110000100001001101011010101111111011000011110, 0x1010011010101001011100000011100110010010101100101000000001000111, 0x110011111100111011011110011010101010101110101100010111011100101, 0x1001110010001101011010000101000011011101110000000010110111110011, 0x1011111100000010101000011111011000101110000010010000111001111110, 0x1101101001011110101101001000110001010101000101011000101000100110, 0x10100101100111010000111101000101100100001000110010001101101010, 0x101101010111100000001110110000111000101111100111010100110000101, 0x100010000001001101101011101101001000010101111110010101000100010, 0x101000010011111100010011100101100111010001111000110100001010000, 0x1001001010010101000110010000100101010100010001010110110110110011, 0x101010000010100111010000001001010000001011010010010011011110000, 0x1100111111100110101001010100010011111010110010000011100100110110, 0x111110110111111101000000011000101101010111000010100100000000101, 0x1111111000011100100100000100111000011011011010000011111011100001, 0x10111101100110101100101111011000111011010010111111011111110110, 0x1001110010001110001110011100100100000111001011100101010010101111, 0x1001110011101001111111101111010010111111011100011010000101110000]) =
      stateOfPacked [0x1011101010111110111010100000010000101000000011100000001001000111, 0x1001101000001001100101000011111111011101011000100011010001111010, 0x1000001100010010101000000011101101100001111011111100000110110111, 0x1110011011001111100111001011011001000000110001011101100001100000, 0x1111110010101001100101101001110010111011110100000010001101010, 0x1010011101001110011001000000101011110011101011110100000001100100, 0x1110111101111110100101010100111010111001111010010011100101010011, 0x110100001010101100010101011100010001101001101101100111111000111, 0x100011111010100011000001100110001100010010111111001110101110010, 0x10111100011100010001001110100011000101111000000110111101000, 0x1000001101100000001011101100011011000010001110111000011011111001, 0x10000001011101011010011010101100100111011010101011100100010, 0x1010010001100110110010110000100111011001010000010011010001010011, 0x10111010111101011111000100000100000100000100111100011000100001, 0x111011001000111001010110100111000000011010110011100000110, 0x1111011000101000100010110011110110000101111011001110101101001111, 0x11111000011110010110011101100010111100011000001110110111010010, 0x1000100010100101110100001011100000111110001011000110000011111010, 0x111111011000101101101001010001100101011010100011001010111110111, 0x100001111110011011001101111001010110100101101010110110010010111, 0x1010111111011000001110010001110101001000000101101011101011000, 0x1000111001100100111101110001111111011001101100110100101000111001, 0x1011100111001010111001100111011110010111110110101100110111111100, 0x1111100000001100110010000101111110111110000000101111101001110111, 0x111111001101111001100001010010010100111100100110111100101010000] := by
  decide

theorem c1_round_9 :
    applyRound 9 (stateOfPacked [0x1011101010111110111010100000010000101000000011100000001001000111, 0x1001101000001001100101000011111111011101011000100011010001111010, 0x1000001100010010101000000011101101100001111011111100000110110111, 0x1110011011001111100111001011011001000000110001011101100001100000, 0x1111110010101001100101101001110010111011110100000010001101010, 0x1010011101001110011001000000101011110011101011110100000001100100, 0x1110111101111110100101010100111010111001111010010011100101010011, 0x110100001010101100010101011100010001101001101101100111111000111, 0x100011111010100011000001100110001100010010111111001110101110010, 0x10111100011100010001001110100011000101111000000110111101000, 0x1000001101100000001011101100011011000010001110111000011011111001, 0x10000001011101011010011010101100100111011010101011100100010, 0x1010010001100110110010110000100111011001010000010011010001010011, 0x10111010111101011111000100000100000100000100111100011000100001, 0x111011001000111001010110100111000000011010110011100000110, 0x1111011000101000100010110011110110000101111011001110101101001111, 0x11111000011110010110011101100010111100011000001110110111010010, 0x1000100010100101110100001011100000111110001011000110000011111010, 0x111111011000101101101001010001100101011010100011001010111110111, 0x100001111110011011001101111001010110100101101010110110010010111, 0x1010111111011000001110010001110101001000000101101011101011000, 0x1000111001100100111101110001111111011001101100110100101000111001, 0x1011100111001010111001100111011110010111110110101100110111111100, 0x1111100000001100110010000101111110111110000000101111101001110111, 0x111111001101111001100001010010010100111100100110111100101010000]) =
      stateOfPacked [0x101101001101100000000101100010101101001010101110001010110000011, 0x1010001110111010000001101000111001011011001110000101001111100111, 0x101000111000110100010011000001001101111000010111100011100111101, 0x100110110111000101101001101101010111110111111010010000100010111, 0x1011010110011100101101111111010000011011101000100011011101100111, 0x101101100101010110111101101000100111011011100100110011111010100, 0x101111001101000111110001100000000101011111001000110001111111100, 0x10001011111101110001101101001000011111100011110000110010111, 0x1000111010111010101100011100111100100111101001110100011000010111, 0x10010110001000011010101001001100111100000011010110100001101, 0x1101100101101001101100111010101011010111100101010100111100100111, 0x100110000000011010010111100011100110111001110001011110111101111, 0x11011100000000111000110001110000000001100110001100111001000000, 0x1010101010101110111101100011011101100001101111000110010010100100, 0x1111111000110010010111111110101110001010101010110101110010010101, 0x1110000010110111101001000010101011000100001001010100100000001000, 0x1000011101010100100000001011011101100001000100001011010011001110, 0x101010111111110000110011010010000111101001100000111000101010100, 0x11101000010110001001110110010010101110001111101101111100010, 0x111001000001010010110010000000000111001001010101111100010101100, 0x10000110001000011101100111101111111110010101011000111101011001, 0x111100011100011111011001001100010110011001101100111111110100, 0x1110100011000001011010101110001001111100110000011110110010011001, 0x1100111101000101111101101001011010000100000010100001010111001111, 0x1111100011011101010110101000100110110010010111011010011011001] := by
  decide

theorem c1_round_10 :
    applyRound 10 (stateOfPacked [0x101101001101100000000101100010101101001010101110001010110000011, 0x1010001110111010000001101000111001011011001110000101001111100111, 0x101000111000110100010011000001001101111000010111100011100111101, 0x100110110111000101101001101101010111110111111010010000100010111, 0x1011010110011100101101111111010000011011101000100011011101100111, 0x101101100101010110111101101000100111011011100100110011111010100, 0x101111001101000111110001100000000101011111001000110001111111100, 0x10001011111101110001101101001000011111100011110000110010111, 0x1000111010111010101100011100111100100111101001110100011000010111, 0x10010110001000011010101001001100111100000011010110100001101, 0x1101100101101001101100111010101011010111100101010100111100100111, 0x100110000000011010010111100011100110111001110001011110111101111, 0x11011100000000111000110001110000000001100110001100111001000000, 0x1010101010101110111101100011011101100001101111000110010010100100, 0x1111111000110010010111111110101110001010101010110101110010010101, 0x1110000010110111101001000010101011000100001001010100100000001000, 0x1000011101010100100000001011011101100001000100001011010011001110, 0x101010111111110000110011010010000111101001100000111000101010100, 0x11101000010110001001110110010010101110001111101101111100010, 0x111001000001010010110010000000000111001001010101111100010101100, 0x10000110001000011101100111101111111110010101011000111101011001, 0x111100011100011111011001001100010110011001101100111111110100, 0x1110100011000001011010101110001001111100110000011110110010011001, 0x1100111101000101111101101001011010000100000010100001010111001111, 0x1111100011011101010110101000100110110010010111011010011011001]) =
      stateOfPacked [0x1101001101011111110110010000000000101011001101000011001100011, 0x101111100110100100101010110010001011011111101010100111001010011, 0x1100110110010010100010101101010110111111000111111111001000111000, 0x10011111110101100110101010111110000111011011011001011001, 0x1001000100100101001101011001011110010101101010011001001100000110, 0x10011001010011111100101001100010010110011110110100001111000, 0x1100010011101000011111111000011110101101001101100001101010101, 0x11011010000001000010101101001111101110101110101111110010011010, 0x111001000110100001110011110101000111011110101110010111111111100, 0x1000100111101110001011100011110111000001000000110010100101110100, 0x100000001101010010001010001000011100000000000110100100111010000, 0x1000101101111111110011101001100111101101110101111001101000100010, 0x10000011100000100010101101001101011011001101001010101101100010, 0x100001000101111111001011111000011101110111010001111010000000, 0x100101010110111000010001010001111111110100010110111010001011110, 0x1110000100110011010100100111100011000011100110011011010110100011, 0x1101101100001111101101100000000101101010111011100100111101111011, 0x1011100011101001100011001101000110110111100101000110000000111000, 0x1100001010110011100111011111101010010011110111010101011110010000, 0x1000101001110110110110001001101010111111100110000111010101111101, 0x110000000000010111110001010111000011101000001000010011000011000, 0x1111111111000110011010001001001011010000011011110000111111101, 0x1110001011100011010100100111011011100000110101101101001101101, 0x1110000110101000110000100001001000110110101111000010011001000010, 0x1110110100101001010100011001111001101111111010101110010100001111] := by
  decide

theorem c1_round_11 :
    applyRound 11 (stateOfPacked [0x1101001101011111110110010000000000101011001101000011001100011, 0x101111100110100100101010110010001011011111101010100111001010011, 0x1100110110010010100010101101010110111111000111111111001000111000, 0x10011111110101100110101010111110000111011011011001011001, 0x1001000100100101001101011001011110010101101010011001001100000110, 0x10011001010011111100101001100010010110011110110100001111000, 0x1100010011101000011111111000011110101101001101100001101010101, 0x11011010000001000010101101001111101110101110101111110010011010, 0x111001000110100001110011110101000111011110101110010111111111100, 0x1000100111101110001011100011110111000001000000110010100101110100, 0x100000001101010010001010001000011100000000000110100100111010000, 0x1000101101111111110011101001100111101101110101111001101000100010, 0x10000011100000100010101101001101011011001101001010101101100010, 0x100001000101111111001011111000011101110111010001111010000000, 0x100101010110111000010001010001111111110100010110111010001011110, 0x1110000100110011010100100111100011000011100110011011010110100011, 0x1101101100001111101101100000000101101010111011100100111101111011, 0x1011100011101001100011001101000110110111100101000110000000111000, 0x1100001010110011100111011111101010010011110111010101011110010000, 0x1000101001110110110110001001101010111111100110000111010101111101, 0x110000000000010111110001010111000011101000001000010011000011000, 0x1111111111000110011010001001001011010000011011110000111111101, 0x1110001011100011010100100111011011100000110101101101001101101, 0x1110000110101000110000100001001000110110101111000010011001000010, 0x1110110100101001010100011001111001101111111010101110010100001111]) =
      stateOfPacked [0x11100000110111011000001000110000000111000111111100011110011, 0x10101001101010011100111010011011110011011001111011011111101100, 0x1101110001100100001101110110000001111111101001111010010100100100, 0x1111100111000010010101000010001101000111110000101010011001111101, 0x10000101111001110110001001101111011101100100100101110000110000, 0x10011110001101101110010010111101010100001100011010110001011011, 0x1000001010111101110011011011111101110101111011110111001100101110, 0x1001010000011110011010111001111011100101010011100110000110101010, 0x1111101110100011001010100101100100100100011110100010001101010111, 0x1101011001000111101000110110010011011101001011111111100111110000, 0x10000011110001100100010110111001110101100001100010011001101010, 0x10000011101110111111111011011011111101111000111110010111111, 0x101011100010111100101111001010001101101110011100101001110100010, 0x1111111110100101111110110000101110011011000100011100000010111101, 0x110010001100100011011110001001011010001011111001110011101110110, 0x101101000000010100000000111100101011100100100100010111110110, 0x100110010001110110001110010110111101010111001101010001000000000, 0x100101110000100001000111111000000101011101001100110011000011101, 0x1010000111000110010001001100101101000011100100110110010010110001, 0x1010110010010101010101110001101100011101000001001010011100110000, 0x1111010000101010111000110110000101000110111010110000000001110011, 0x1000000111100110111010111110001010001001100100000110101010101101, 0x1000001000000000100011110001010100111110101110010011000011111011, 0x1011101111011100000101000010110100000000101101101010010011011000, 0x101010011011101001011000001110110000001011100011110101100111011] := by
  decide

theorem c1_round_12 :
    applyRound 12 (stateOfPacked [0x11100000110111011000001000110000000111000111111100011110011, 0x10101001101010011100111010011011110011011001111011011111101100, 0x1101110001100100001101110110000001111111101001111010010100100100, 0x1111100111000010010101000010001101000111110000101010011001111101, 0x10000101111001110110001001101111011101100100100101110000110000, 0x10011110001101101110010010111101010100001100011010110001011011, 0x1000001010111101110011011011111101110101111011110111001100101110, 0x1001010000011110011010111001111011100101010011100110000110101010, 0x1111101110100011001010100101100100100100011110100010001101010111, 0x1101011001000111101000110110010011011101001011111111100111110000, 0x10000011110001100100010110111001110101100001100010011001101010, 0x10000011101110111111111011011011111101111000111110010111111, 0x101011100010111100101111001010001101101110011100101001110100010, 0x1111111110100101111110110000101110011011000100011100000010111101, 0x110010001100100011011110001001011010001011111001110011101110110, 0x101101000000010100000000111100101011100100100100010111110110, 0x100110010001110110001110010110111101010111001101010001000000000, 0x100101110000100001000111111000000101011101001100110011000011101, 0x1010000111000110010001001100101101000011100100110110010010110001, 0x1010110010010101010101110001101100011101000001001010011100110000, 0x1111010000101010111000110110000101000110111010110000000001110011, 0x1000000111100110111010111110001010001001100100000110101010101101, 0x1000001000000000100011110001010100111110101110010011000011111011, 0x1011101111011100000101000010110100000000101101101010010011011000, 0x101010011011101001011000001110110000001011100011110101100111011]) =
      stateOfPacked [0x10101001000110000111111001100101011011001011001010010100001010, 0x1100110001100100001100000000111101001100011011001101011000100010, 0x1111111000011000000001000001001111110001111000011000100010001000, 0x1000011110100011000000110001011110100001101000100011100111110101, 0x1000101010100011001110100101011000001101100000100011010110110001, 0x11000110100111100101111011011110100111001111011011001110100000, 0x100011111111011000100110111110010010000001111010000110010110000, 0x1100001110010011000000011101010111000001001010001000000001110, 0x1001111000001110001010111010111110110011001001100110011001100111, 0x101010011100000101101110101110111010010011000011100001011011, 0x10110100101000011101000011111111110000001111010101000011000100, 0x1110101111110101100100111010001110100001010001111000000001001111, 0x101111010001000011000101010000001011011001111000100101000100111, 0x110011100110110011110011110000001111110110000101001001010110111, 0x10100100101001010111101110100001111111100000000111010100110111, 0x1101010001001011101110011000110100111001001011110010100010101011, 0x100110111101011000000000100010011111111101010111010001100100011, 0x11001101101011111101100001100110100111001001111001110011000001, 0x1111011100011100101001000011110110111101000010101101100011101011, 0x1001101101110100100101011110011100111101100011111110011010011001, 0x111000101010000000001100101001010000110011111001101101110100010, 0x100110011000010101101011101010000010010000101110100100101101011, 0x10110001101110101010000101011000001000000111100000010011000011, 0x100001110001100110001100010101010000011111001001000110101000, 0x1010111001001000111100010010100111110011111110110101100110111110] := by
  decide

theorem c1_round_13 :
    applyRound 13 (stateOfPacked [0x10101001000110000111111001100101011011001011001010010100001010, 0x1100110001100100001100000000111101001100011011001101011000100010, 0x1111111000011000000001000001001111110001111000011000100010001000, 0x1000011110100011000000110001011110100001101000100011100111110101, 0x1000101010100011001110100101011000001101100000100011010110110001, 0x11000110100111100101111011011110100111001111011011001110100000, 0x100011111111011000100110111110010010000001111010000110010110000, 0x1100001110010011000000011101010111000001001010001000000001110, 0x1001111000001110001010111010111110110011001001100110011001100111, 0x101010011100000101101110101110111010010011000011100001011011, 0x10110100101000011101000011111111110000001111010101000011000100, 0x1110101111110101100100111010001110100001010001111000000001001111, 0x101111010001000011000101010000001011011001111000100101000100111, 0x110011100110110011110011110000001111110110000101001001010110111, 0x10100100101001010111101110100001111111100000000111010100110111, 0x1101010001001011101110011000110100111001001011110010100010101011, 0x100110111101011000000000100010011111111101010111010001100100011, 0x11001101101011111101100001100110100111001001111001110011000001, 0x1111011100011100101001000011110110111101000010101101100011101011, 0x1001101101110100100101011110011100111101100011111110011010011001, 0x111000101010000000001100101001010000110011111001101101110100010, 0x100110011000010101101011101010000010010000101110100100101101011, 0x10110001101110101010000101011000001000000111100000010011000011, 0x100001110001100110001100010101010000011111001001000110101000, 0x1010111001001000111100010010100111110011111110110101100110111110]) =
      stateOfPacked [0x101011110110001110111101100010011111010011000010001100111101000, 0x1010011011100111101101001110111100010101110010001100101111101, 0x1011100000010011100011000011010101011111011111000110110101111011, 0x1000001101011010100100001110100010011100100111001111000011101110, 0x101001000110101100111000010011110110101101101111111011011101010, 0x100000000100000111100111110010101101001100111001101011111001111, 0x1110110100111111001001111111100011010010000010100101100000101110, 0x11110101101110000011111110100000001010010101100111000100011, 0x1111101000110110101000111101100011100101000011100001010111100111, 0x1001100101110000010101000010100100100111010000011010010010110000, 0x101111111001001010100011111111100010010001010100000000011011010, 0x1110011110100110000000010010111100010100001100011010010010000101, 0x1110001110100011001101100010000110001111101101010111011101111011, 0x1111010011011000111110110000000110010011011111101010100110000110, 0x101110100100101000110000111010111011100111010011011110010100100, 0x100111001101001001000110100101101110111110010011101001011001100, 0x1111100101111111110101000110011011001111001010001111100011000101, 0x1011011011010010010001110010010110001001000111110000011111100100, 0x10110110110000010101010100100010011100010101010001100010101110, 0x1000110100111011110011011110101001011011100011111010100101000001, 0x1110101010101010111000001101011010100011110011110101010000101111, 0x1010101011111000011011100100100100011110011100100111101011001110, 0x1110111111101000111110110111011000100111101000111010001011111011, 0x1111110000100110100100111100001111001010010010100110101000100110, 0x1100010110000111000000001001111110011011010101001101011010001011] := by
  decide

theorem c1_round_14 :
    applyRound 14 (stateOfPacked [0x101011110110001110111101100010011111010011000010001100111101000, 0x1010011011100111101101001110111100010101110010001100101111101, 0x1011100000010011100011000011010101011111011111000110110101111011, 0x1000001101011010100100001110100010011100100111001111000011101110, 0x101001000110101100111000010011110110101101101111111011011101010, 0x100000000100000111100111110010101101001100111001101011111001111, 0x1110110100111111001001111111100011010010000010100101100000101110, 0x11110101101110000011111110100000001010010101100111000100011, 0x1111101000110110101000111101100011100101000011100001010111100111, 0x1001100101110000010101000010100100100111010000011010010010110000, 0x101111111001001010100011111111100010010001010100000000011011010, 0x1110011110100110000000010010111100010100001100011010010010000101, 0x1110001110100011001101100010000110001111101101010111011101111011, 0x1111010011011000111110110000000110010011011111101010100110000110, 0x101110100100101000110000111010111011100111010011011110010100100, 0x100111001101001001000110100101101110111110010011101001011001100, 0x1111100101111111110101000110011011001111001010001111100011000101, 0x1011011011010010010001110010010110001001000111110000011111100100, 0x10110110110000010101010100100010011100010101010001100010101110, 0x1000110100111011110011011110101001011011100011111010100101000001, 0x1110101010101010111000001101011010100011110011110101010000101111, 0x1010101011111000011011100100100100011110011100100111101011001110, 0x1110111111101000111110110111011000100111101000111010001011111011, 0x1111110000100110100100111100001111001010010010100110101000100110, 0x1100010110000111000000001001111110011011010101001101011010001011]) =
      stateOfPacked [0x1100011001000000101101010001000111000100011011000110000000101101, 0x1101011101110011001001100100101001110011010111101111000010000110, 0x1001100000110110111001011001101000010110110000001100100001010101, 0x1010000001000110111110010111000100000000111111000010011111001011, 0x1011110111001100111110101010111111100011101111000111011100010010, 0x1110101111111100000101101010010101101000100100010101010100001111, 0x110101000010011010101100000101110010001100001111111100110000011, 0x111101101100100101110000100000001011010111110110101010101011011, 0x1000100111001110000011100100000100110010111001010110110001110101, 0x1110010000010001110111011100111001010101011010110011101011100110, 0x11011111111011001110110100111001001011001010100010000011100011, 0x110111110000100100001000111010100000011110111011000100100111101, 0x10011110110010010111010100000110010111000010011010011100001001, 0x111010111011000011010111000101111011100101001111001001100100001, 0x100010011111101100011001000111101000100110100000100110100010110, 0x1011010011011010100111011101011110111000111111101111011010000111, 0x1111001110110000001001001000011010000000011101001000011000110, 0x100111011001110101011110111101001110010001000011101000001001000, 0x1111000000100110000000111010100011111000011111110011111100011000, 0x1101011101100010110001011010010110110000011011001100110101001111, 0x1111011111100000111011100011111110111111010101100100111100110001, 0x1011001011001001101001011110011100101001100001110110011111000111, 0x1101100111001010001001000010000010110101110000100101101000010100, 0x10000111111011001110111000010100010110000010101111011000101010, 0x1111000011000110110100100011100010010101101101000010111110000] := by
  decide

theorem c1_round_15 :
    applyRound 15 (stateOfPacked [0x1100011001000000101101010001000111000100011011000110000000101101, 0x1101011101110011001001100100101001110011010111101111000010000110, 0x1001100000110110111001011001101000010110110000001100100001010101, 0x1010000001000110111110010111000100000000111111000010011111001011, 0x1011110111001100111110101010111111100011101111000111011100010010, 0x1110101111111100000101101010010101101000100100010101010100001111, 0x110101000010011010101100000101110010001100001111111100110000011, 0x111101101100100101110000100000001011010111110110101010101011011, 0x1000100111001110000011100100000100110010111001010110110001110101, 0x1110010000010001110111011100111001010101011010110011101011100110, 0x11011111111011001110110100111001001011001010100010000011100011, 0x110111110000100100001000111010100000011110111011000100100111101, 0x10011110110010010111010100000110010111000010011010011100001001, 0x111010111011000011010111000101111011100101001111001001100100001, 0x100010011111101100011001000111101000100110100000100110100010110, 0x1011010011011010100111011101011110111000111111101111011010000111, 0x1111001110110000001001001000011010000000011101001000011000110, 0x100111011001110101011110111101001110010001000011101000001001000, 0x1111000000100110000000111010100011111000011111110011111100011000, 0x1101011101100010110001011010010110110000011011001100110101001111, 0x1111011111100000111011100011111110111111010101100100111100110001, 0x1011001011001001101001011110011100101001100001110110011111000111, 0x1101100111001010001001000010000010110101110000100101101000010100, 0x10000111111011001110111000010100010110000010101111011000101010, 0x1111000011000110110100100011100010010101101101000010111110000]) =
      stateOfPacked [0x1101101111101001111011000110100101110111001001001011110110101010, 0x1101101101100010100110110100110110101011110000110000100001101101, 0x1000010111100010111100101000100001111010011001011011011110110001, 0x1010011101010011100011001101000101000010101011101101011101100001, 0x1001100110111100101111000000001011111010101000000101001011010110, 0x110010101011110010100100011110001100011100100111001110110000010, 0x1110111010011101111100100001000100011111010101011100111111010011, 0x1010010001010011110111101101100010000010100010011000000110011100, 0x1101001100101011101000111101010110111101101100111110100100011101, 0x10001101111011101110111100110011001001001011000110110011101111, 0x101010000000111111000011111010101011000111100100110001110111111, 0x1100111011111101011000111111110000001101110001100001111100110101, 0x1110100010101101110111000001010110110000100000001000111101111100, 0x1110000110000100000011110000000111001110011000100111100011010111, 0x1010011100001101000010100011110111011010001101110101101100110001, 0x1111110110110000110011011010111111010001110110001101101110111, 0x1000100110110000010000100001001000000101011101010100111111101000, 0x1000011100100111010010110100110011100100110000110000001110001010, 0x1101000101000101010111101010000101011010001010100111011011000000, 0x10000001110000110000000101101001010100110100100001000010011111, 0x1010000010100011100110101000010110100111000101111110101001010, 0x1100111000100001111010001110001111010000100000100110101001001111, 0x1010101101001000001111100100000000100110000001101100000110011110, 0x1001111011110111111110001111100000000010101010011001001100000011, 0x1001011100111001110010110011101001100110011001100110000000100110] := by
  decide

theorem c1_round_16 :
    applyRound 16 (stateOfPacked [0x1101101111101001111011000110100101110111001001001011110110101010, 0x1101101101100010100110110100110110101011110000110000100001101101, 0x1000010111100010111100101000100001111010011001011011011110110001, 0x1010011101010011100011001101000101000010101011101101011101100001, 0x1001100110111100101111000000001011111010101000000101001011010110, 0x110010101011110010100100011110001100011100100111001110110000010, 0x1110111010011101111100100001000100011111010101011100111111010011, 0x1010010001010011110111101101100010000010100010011000000110011100, 0x1101001100101011101000111101010110111101101100111110100100011101, 0x10001101111011101110111100110011001001001011000110110011101111, 0x101010000000111111000011111010101011000111100100110001110111111, 0x1100111011111101011000111111110000001101110001100001111100110101, 0x1110100010101101110111000001010110110000100000001000111101111100, 0x1110000110000100000011110000000111001110011000100111100011010111, 0x1010011100001101000010100011110111011010001101110101101100110001, 0x1111110110110000110011011010111111010001110110001101101110111, 0x1000100110110000010000100001001000000101011101010100111111101000, 0x1000011100100111010010110100110011100100110000110000001110001010, 0x1101000101000101010111101010000101011010001010100111011011000000, 0x10000001110000110000000101101001010100110100100001000010011111, 0x1010000010100011100110101000010110100111000101111110101001010, 0x1100111000100001111010001110001111010000100000100110101001001111, 0x1010101101001000001111100100000000100110000001101100000110011110, 0x1001111011110111111110001111100000000010101010011001001100000011, 0x1001011100111001110010110011101001100110011001100110000000100110]) =
      stateOfPacked [0x1100110110000110001000111011000101000100000010010011010011101101, 0x110001001101000110110010000001110111110101000001001011011101101, 0x111011001111000000000010001010110111101001111000110110011001111, 0x1101011110110011111101110010001000000110100110011001100100111101, 0x110011110100010000011011100101001111110100100110000000111000000, 0x1000011010100011011000111100111111101111100100101110100100100001, 0x100100110001101000011101100010101111100011111011001101110011101, 0x1010011100001010010110000010000101111110001000100010010111110101, 0x1001010000100000001111001100000111100001001110100000000001111111, 0x100010100110010001001101101001101001010111101100001100001010, 0x1101011001011111101101110011100000100111000011111000100010001101, 0x111000010001101010001010001111001000000001001010111011001100010, 0x110100010011110000111011010011100100110101010000110001001110, 0x1110011001110110110100010110110000000010010110011111010101010000, 0x1011010101111101000010001001011000111000111011000101101100011111, 0x10100001110110011101110001110011110101100001101010101111100110, 0x1001100110111111100100000010001110100100101111010011101000010011, 0x1000111001011100100101100010101011010100000011011100111011001001, 0x1011111011100110100000010010010000100010001011101111001100000010, 0x101110101000100010001001100011011101111100111000110001100100111, 0x1010100111110100000100111100100010101100101010011000101000001000, 0x1111011110001011100010001111101001101111000001001010110011110011, 0x1001111010101101011010101000111100101110010111111111100100001111, 0x1111101111100101110000010111011011011001111011000110001011001011, 0x1100010100000010111000111101100001010001110000011100111000010001] := by
  decide

theorem c1_round_17 :
    applyRound 17 (stateOfPacked [0x1100110110000110001000111011000101000100000010010011010011101101, 0x110001001101000110110010000001110111110101000001001011011101101, 0x111011001111000000000010001010110111101001111000110110011001111, 0x1101011110110011111101110010001000000110100110011001100100111101, 0x110011110100010000011011100101001111110100100110000000111000000, 0x1000011010100011011000111100111111101111100100101110100100100001, 0x100100110001101000011101100010101111100011111011001101110011101, 0x1010011100001010010110000010000101111110001000100010010111110101, 0x1001010000100000001111001100000111100001001110100000000001111111, 0x100010100110010001001101101001101001010111101100001100001010, 0x1101011001011111101101110011100000100111000011111000100010001101, 0x111000010001101010001010001111001000000001001010111011001100010, 0x110100010011110000111011010011100100110101010000110001001110, 0x1110011001110110110100010110110000000010010110011111010101010000, 0x1011010101111101000010001001011000111000111011000101101100011111, 0x10100001110110011101110001110011110101100001101010101111100110, 0x1001100110111111100100000010001110100100101111010011101000010011, 0x1000111001011100100101100010101011010100000011011100111011001001, 0x1011111011100110100000010010010000100010001011101111001100000010, 0x101110101000100010001001100011011101111100111000110001100100111, 0x1010100111110100000100111100100010101100101010011000101000001000, 0x1111011110001011100010001111101001101111000001001010110011110011, 0x1001111010101101011010101000111100101110010111111111100100001111, 0x1111101111100101110000010111011011011001111011000110001011001011, 0x1100010100000010111000111101100001010001110000011100111000010001]) =
      stateOfPacked [0x1101001011000111011010001100010011101000100011110010111110111010, 0x10100000111101011000010000010101010111110011010100011101010101, 0x1111010000100110111001100110001110010001001100101110110100101100, 0x110110011111010101110110000001100001011000101100000010111010001, 0x10000100101100101001111100101111100111011111011001110101100, 0x10001000001111001111000101100011111101111100011011101101101111, 0x1101110010000101100010110110101010111000110001011100101000100111, 0x10000101010011111010010101100100011010111110001111100001011, 0x1001101000010101110110001001011100001001000111101001001000000000, 0x101100101001110010010111110111000110011111110111010010010010000, 0x1011100000010110010010101001100000111110011100110110001010000101, 0x101001001110010001110011100110011101100000011011011011100011, 0x1100101111001101101100101111100111011101010010011011101010111001, 0x110011000100110011110001100111010100111001110000100000001111100, 0x1011001010011111001110010101100011011010011011100110001110001010, 0x1110011111011001001110010000100100110110101100110000010111001001, 0x1110110110011001000011001001000011111111011111000010000010011, 0x1111000101110111001110110110110001010011001000111011101001100100, 0x1111001001011001011000010011110111011010100011011101000001111001, 0x1000111110100000011101010110100010100001110101111110001101110000, 0x1111000001101100010111001000011111111110001010111010001010001011, 0x1101111000110110100011110110000110110001101010110000001000000000, 0x1001011111111010100000111000101001010000100001101000100001110, 0x1001011001011101101001011010111011011000000101000110101011011001, 0x1001010011000010111100001011010010011010101001011011111010110] := by
  decide

theorem c1_round_18 :
    applyRound 18 (stateOfPacked [0x1101001011000111011010001100010011101000100011110010111110111010, 0x10100000111101011000010000010101010111110011010100011101010101, 0x1111010000100110111001100110001110010001001100101110110100101100, 0x110110011111010101110110000001100001011000101100000010111010001, 0x10000100101100101001111100101111100111011111011001110101100, 0x10001000001111001111000101100011111101111100011011101101101111, 0x1101110010000101100010110110101010111000110001011100101000100111, 0x10000101010011111010010101100100011010111110001111100001011, 0x1001101000010101110110001001011100001001000111101001001000000000, 0x101100101001110010010111110111000110011111110111010010010010000, 0x1011100000010110010010101001100000111110011100110110001010000101, 0x101001001110010001110011100110011101100000011011011011100011, 0x1100101111001101101100101111100111011101010010011011101010111001, 0x110011000100110011110001100111010100111001110000100000001111100, 0x1011001010011111001110010101100011011010011011100110001110001010, 0x1110011111011001001110010000100100110110101100110000010111001001, 0x1110110110011001000011001001000011111111011111000010000010011, 0x1111000101110111001110110110110001010011001000111011101001100100, 0x1111001001011001011000010011110111011010100011011101000001111001, 0x1000111110100000011101010110100010100001110101111110001101110000, 0x1111000001101100010111001000011111111110001010111010001010001011, 0x1101111000110110100011110110000110110001101010110000001000000000, 0x1001011111111010100000111000101001010000100001101000100001110, 0x1001011001011101101001011010111011011000000101000110101011011001, 0x1001010011000010111100001011010010011010101001011011111010110]) =
      stateOfPacked [0x1000011010001101000101101100100011011010001111011001010001000, 0x1110001000001110101101010011111001110000111000101101001101111001, 0x101110000101000100110110011010101100111010001000000010101001100, 0x110101101100010111111100000101000000010000101010111111100011101, 0x1101100010110000111110110111100010110000111101110101011111010, 0x1111011000011100001101100000110111110011111010111111110011001000, 0x1000010101001100101010010100111000010100101111100010011110111011, 0x1001100101011100011001110101001011010010011110111101011110110011, 0x10011001100001111001111001010000111110100110101111111110100000, 0x1011001111000000101101101001110101010001110000001001100111001001, 0x110010111011001001000001011111110000010001001001110010000001110, 0x1011010100000001011001010100010100110111111000101000010100000111, 0x1011100111010010110111111101100000101000010110110001101010101010, 0x1000100100000001101111011111010111001010110001001001101000010100, 0x1001110011111011000100111010100101000011100111001010111111000, 0x1111010010111000001110100001101110000001111001011110011000101101, 0x1011010101110111110001001101100110111111100010000111100011010000, 0x1011101010110010101111110101101101100110010000010001001100101100, 0x10101010101110111101111111000000110101000001011110100000010, 0x1011111100111001111111000100100011010000111011100001001111110011, 0x1001110001101101000001000101110000010110001011111010011001110111, 0x1110100111100101100010010010111100011100100000010100100101000100, 0x1111101100001110011010001100111000101010001110001110110001111110, 0x100110001000111010011011110111111000000100101010001101101010101, 0x1001000010110001111110000011100100110111111000000010010011110101] := by
  decide

theorem c1_round_19 :
    applyRound 19 (stateOfPacked [0x1000011010001101000101101100100011011010001111011001010001000, 0x1110001000001110101101010011111001110000111000101101001101111001, 0x101110000101000100110110011010101100111010001000000010101001100, 0x110101101100010111111100000101000000010000101010111111100011101, 0x1101100010110000111110110111100010110000111101110101011111010, 0x1111011000011100001101100000110111110011111010111111110011001000, 0x1000010101001100101010010100111000010100101111100010011110111011, 0x1001100101011100011001110101001011010010011110111101011110110011, 0x10011001100001111001111001010000111110100110101111111110100000, 0x1011001111000000101101101001110101010001110000001001100111001001, 0x110010111011001001000001011111110000010001001001110010000001110, 0x1011010100000001011001010100010100110111111000101000010100000111, 0x1011100111010010110111111101100000101000010110110001101010101010, 0x1000100100000001101111011111010111001010110001001001101000010100, 0x1001110011111011000100111010100101000011100111001010111111000, 0x1111010010111000001110100001101110000001111001011110011000101101, 0x1011010101110111110001001101100110111111100010000111100011010000, 0x1011101010110010101111110101101101100110010000010001001100101100, 0x10101010101110111101111111000000110101000001011110100000010, 0x1011111100111001111111000100100011010000111011100001001111110011, 0x1001110001101101000001000101110000010110001011111010011001110111, 0x1110100111100101100010010010111100011100100000010100100101000100, 0x1111101100001110011010001100111000101010001110001110110001111110, 0x100110001000111010011011110111111000000100101010001101101010101, 0x1001000010110001111110000011100100110111111000000010010011110101]) =
      stateOfPacked [0x110010111101010101100001010001001110001010010000111101101101010, 0x110110100000100010101101010101110101000010100101110110101101010, 0x1100001100000010111110111101110100001001111110100100111000111111, 0x10110101001000110000111010110000010110001000110101110101100010, 0x1010001100010011011001111111110100111001111011010111011111111001, 0x10001110101111001010100101101001100110100100011101101100100000, 0x1000101010000100111110000111001101000100011100011100100011, 0x10001100010010001001001101111001010100101010100011101110010010, 0x1111111001010111011100100110010111010000111010101011000010101, 0x1001101011011000000000011001110011000101001001110001001000111010, 0x1101100110110110001110000010001100000100100101001110000001111111, 0x1010100100011110110010110111011000101111101011110110001110111101, 0x111100101101101000010100011110101111110110111111001010011110000, 0x1101100010100110100011011101001000110011001110011101101010011011, 0x1100011100010110111101011011000111000000111010100100011111111010, 0x101110010011010010010010001010000010010111011100000010000110001, 0x101110011011100001111011110000011000010000010000111001111010000, 0x1101101111011011100011111101011100000000011100111100001010111011, 0x1110000001011101110001000001110001011001011111010110111110100111, 0x1111101100111101110101111100100010110011111111011001000011001011, 0x1001001000011011011010010101100111111101111010111001111100101001, 0x10111100101000001000001110011001001000110110010110010100100011, 0x101010001010001110101000101010001011001000101101110100101110100, 0x111010001111011011000010101100111011101010110000010000000001111, 0x10100101001101010000011011101000011011111010001000000000110000] := by
  decide

theorem c1_round_20 :
    applyRound 20 (stateOfPacked [0x110010111101010101100001010001001110001010010000111101101101010, 0x110110100000100010101101010101110101000010100101110110101101010, 0x1100001100000010111110111101110100001001111110100100111000111111, 0x10110101001000110000111010110000010110001000110101110101100010, 0x1010001100010011011001111111110100111001111011010111011111111001, 0x10001110101111001010100101101001100110100100011101101100100000, 0x1000101010000100111110000111001101000100011100011100100011, 0x10001100010010001001001101111001010100101010100011101110010010, 0x1111111001010111011100100110010111010000111010101011000010101, 0x1001101011011000000000011001110011000101001001110001001000111010, 0x1101100110110110001110000010001100000100100101001110000001111111, 0x1010100100011110110010110111011000101111101011110110001110111101, 0x111100101101101000010100011110101111110110111111001010011110000, 0x1101100010100110100011011101001000110011001110011101101010011011, 0x1100011100010110111101011011000111000000111010100100011111111010, 0x101110010011010010010010001010000010010111011100000010000110001, 0x101110011011100001111011110000011000010000010000111001111010000, 0x1101101111011011100011111101011100000000011100111100001010111011, 0x1110000001011101110001000001110001011001011111010110111110100111, 0x1111101100111101110101111100100010110011111111011001000011001011, 0x1001001000011011011010010101100111111101111010111001111100101001, 0x10111100101000001000001110011001001000110110010110010100100011, 0x101010001010001110101000101010001011001000101101110100101110100, 0x111010001111011011000010101100111011101010110000010000000001111, 0x10100101001101010000011011101000011011111010001000000000110000]) =
      stateOfPacked [0x111011110111100111000011000100101001010101101001000111111000101, 0x1011110001011010000110100110111100001000000001011111101100110000, 0x1001010000100011111100111001100110111001101010100111111000000100, 0x11100111011001001110110001000000110100100010100100111010110100, 0x1100011010000000000111101001010111100000011001101000111101011, 0x1100001011110110010100101011011100001100001101111111011111000101, 0x1010010110101010001010110001111001100101010111000100101010001011, 0x1011100000100010001011100111011111100101111000000110101010111101, 0x110101101101001010101010110110101110101001100001100001011001100, 0x1000000001000001101110000100001101110011100010001000000101111110, 0x11110100011001101010000111000010011000010010110011110011000111, 0x1110101011000000000011011111110000011110011100011100011000011111, 0x1000111111100110100100100011100011011000010110100000111011101001, 0x11001011111100001100111011001111101110001101101100000100111001, 0x110111100100011010001010001111000110001001011111001010011001100, 0x1110100011010001000001000111000100111110110111111101011101100111, 0x101000000010000111010101101000011011010100111111010100000001011, 0x1110100001111101100001111000100010110000001011110110101101111011, 0x111011100001100111110110000001110111010001010000110001111101101, 0x1111110110010101110111110101000001011000101111001101101110001, 0x1111011010010011101000011101111000101011110100001010100000010110, 0x11100110001101110110111100110111100011010010000001011010001110, 0x1011011001100000010001010000001001001011010100010110000010011011, 0x1110110100101011001010100000110010010011100000100001101110100, 0x100111000010011111010000001100010011000000010111101101011100111] := by
  decide

theorem c1_round_21 :
    applyRound 21 (stateOfPacked [0x111011110111100111000011000100101001010101101001000111111000101, 0x1011110001011010000110100110111100001000000001011111101100110000, 0x1001010000100011111100111001100110111001101010100111111000000100, 0x11100111011001001110110001000000110100100010100100111010110100, 0x1100011010000000000111101001010111100000011001101000111101011, 0x1100001011110110010100101011011100001100001101111111011111000101, 0x1010010110101010001010110001111001100101010111000100101010001011, 0x1011100000100010001011100111011111100101111000000110101010111101, 0x110101101101001010101010110110101110101001100001100001011001100, 0x1000000001000001101110000100001101110011100010001000000101111110, 0x11110100011001101010000111000010011000010010110011110011000111, 0x1110101011000000000011011111110000011110011100011100011000011111, 0x1000111111100110100100100011100011011000010110100000111011101001, 0x11001011111100001100111011001111101110001101101100000100111001, 0x110111100100011010001010001111000110001001011111001010011001100, 0x1110100011010001000001000111000100111110110111111101011101100111, 0x101000000010000111010101101000011011010100111111010100000001011, 0x1110100001111101100001111000100010110000001011110110101101111011, 0x111011100001100111110110000001110111010001010000110001111101101, 0x1111110110010101110111110101000001011000101111001101101110001, 0x1111011010010011101000011101111000101011110100001010100000010110, 0x11100110001101110110111100110111100011010010000001011010001110, 0x1011011001100000010001010000001001001011010100010110000010011011, 0x1110110100101011001010100000110010010011100000100001101110100, 0x100111000010011111010000001100010011000000010111101101011100111]) =
      stateOfPacked [0x1111011111001100000001000111010101010101001000110010110011010011, 0x1101011001101100011100001100000011001111010100000101010011001, 0x110111110110001100001001111101011111101101000100100101010000011, 0x1000001100111111011111110010111000010001100110100110110001011111, 0x1001011000000001010101100101100000100111001101001100000001000000, 0x1011100010101010110111011010101001101001101111011010001001111010, 0x111011111110010010100000111000110001001100110111010000101110000, 0x1001101110010000101110000100011110111000011001100111000010110011, 0x1100000001001010100110010111110100111111110001100110000101010, 0x101010110000000011110000010000110101100110111010110001000010001, 0x110101000010101010101100100110110100101100100100100110010000110, 0x1001011101010011100101011000000001100001111110110001001110000110, 0x10000100011000001110110111011111000100010101000101000011, 0x10101001111101011001101101111000011010011110100110111110010100, 0x1101110001100111100001010011100111111111000001101101000000000101, 0x1100010010110100000001101000100101110001000001010010111110101110, 0x101100000011101010010011101110010101101011101000110000010000111, 0x101000100111100101110111000000000011011100101101010001011011000, 0x100110101100001010011110011001001001111001101110111111000011101, 0x1011010000000001100111001011011100001101110111110111001101010110, 0x110000000101010011111111001001000101111110101000010001111100010, 0x100000001011100001001011010100011101010001000100111101001010011, 0x1001000111100100101001000110001111111011101001011111101011111111, 0x1100100101001111110000111001111110000000111111001001101010010101, 0x1011010010110100000010111001001110000011100110010101110001100000] := by
  decide

theorem c1_round_22 :
    applyRound 22 (stateOfPacked [0x1111011111001100000001000111010101010101001000110010110011010011, 0x1101011001101100011100001100000011001111010100000101010011001, 0x110111110110001100001001111101011111101101000100100101010000011, 0x1000001100111111011111110010111000010001100110100110110001011111, 0x1001011000000001010101100101100000100111001101001100000001000000, 0x1011100010101010110111011010101001101001101111011010001001111010, 0x111011111110010010100000111000110001001100110111010000101110000, 0x1001101110010000101110000100011110111000011001100111000010110011, 0x1100000001001010100110010111110100111111110001100110000101010, 0x101010110000000011110000010000110101100110111010110001000010001, 0x110101000010101010101100100110110100101100100100100110010000110, 0x1001011101010011100101011000000001100001111110110001001110000110, 0x10000100011000001110110111011111000100010101000101000011, 0x10101001111101011001101101111000011010011110100110111110010100, 0x1101110001100111100001010011100111111111000001101101000000000101, 0x1100010010110100000001101000100101110001000001010010111110101110, 0x101100000011101010010011101110010101101011101000110000010000111, 0x101000100111100101110111000000000011011100101101010001011011000, 0x100110101100001010011110011001001001111001101110111111000011101, 0x1011010000000001100111001011011100001101110111110111001101010110, 0x110000000101010011111111001001000101111110101000010001111100010, 0x100000001011100001001011010100011101010001000100111101001010011, 0x1001000111100100101001000110001111111011101001011111101011111111, 0x1100100101001111110000111001111110000000111111001001101010010101, 0x1011010010110100000010111001001110000011100110010101110001100000]) =
      stateOfPacked [0x1101101010100011111000010101111110010110001111001001111111, 0x100011100010110101000010100101010110111110000111110001000001110, 0x111000000100110011001101011100011111111011001100010001100010110, 0x1001010100101010001001110001011100000010110110010001100011011110, 0x1000011000100111111101011101101010111001010110000110010000101100, 0x101000110110000011011110001110001001001011110001111011001101001, 0x1101011010011101000010010110010101111000010001011010000101010110, 0x1101101010110001011011001100010000100000001110000101111011101001, 0x10001001111011010000101110111001010010110110000111111110011001, 0x101111001000101100010110000100001110000100111000000100100001001, 0x100101001101101101010111000011000110001110000101101011010100000, 0x1111101011000100111101001111101000110010101110110010000111111100, 0x1000101100111011000011101001010011111000100000000100110000000110, 0x101100001111001101011010011111001101001010001111001011001101110, 0x1000000001010111110011010100000101010010111000010111100010110011, 0x110101011011110011001101110000000010111100110011101110101000100, 0x1000011110101101010101100101011001011111100110000101100110100110, 0x1010011110100011000010001000001001111100111110011000001011000010, 0x1011101111110001000011000011100011000111001110010010111011011, 0x1100111101100001010000000111101100001011110100001010111100000100, 0x10100011000000001000100011111101001110011111001110011011010110, 0x1110010100111001100100001000000001010100110010111000000011001110, 0x1111101010110111111110110110001001111011111111000111111110000000, 0x1101001101110010010010111101100010011010101010011111000100001001, 0x100011110111011011100110001111100011100110000111000111110001110] := by
  decide

theorem c1_round_23 :
    applyRound 23 (stateOfPacked [0x1101101010100011111000010101111110010110001111001001111111, 0x100011100010110101000010100101010110111110000111110001000001110, 0x111000000100110011001101011100011111111011001100010001100010110, 0x1001010100101010001001110001011100000010110110010001100011011110, 0x1000011000100111111101011101101010111001010110000110010000101100, 0x101000110110000011011110001110001001001011110001111011001101001, 0x1101011010011101000010010110010101111000010001011010000101010110, 0x1101101010110001011011001100010000100000001110000101111011101001, 0x10001001111011010000101110111001010010110110000111111110011001, 0x101111001000101100010110000100001110000100111000000100100001001, 0x100101001101101101010111000011000110001110000101101011010100000, 0x1111101011000100111101001111101000110010101110110010000111111100, 0x1000101100111011000011101001010011111000100000000100110000000110, 0x101100001111001101011010011111001101001010001111001011001101110, 0x1000000001010111110011010100000101010010111000010111100010110011, 0x110101011011110011001101110000000010111100110011101110101000100, 0x1000011110101101010101100101011001011111100110000101100110100110, 0x1010011110100011000010001000001001111100111110011000001011000010, 0x1011101111110001000011000011100011000111001110010010111011011, 0x1100111101100001010000000111101100001011110100001010111100000100, 0x10100011000000001000100011111101001110011111001110011011010110, 0x1110010100111001100100001000000001010100110010111000000011001110, 0x1111101010110111111110110110001001111011111111000111111110000000, 0x1101001101110010010010111101100010011010101010011111000100001001, 0x100011110111011011100110001111100011100110000111000111110001110]) =
      stateOfPacked [0x5664012524243403465553110463601322656366555531633553543323513230, 0x4120034631332410420143114350325655442531326135346504242312334611, 0x1531113233622526332063020136006163343303032305311151023653641663, 0x445316223052434151335236154334334436353545033063410443036623241, 0x532143650360531125243616305006516434065351042554450554341400254, 0x1633050133332331661444550634335533316533144425621444432532155340, 0x3503016625420320333562223510504341360445236244563433333553423355, 0x2125225011600436143035033243036561165432353201425515331312335665, 0x3661456034343353512251326513543146656212164042364350665013601062, 0x3443262610130142501362626531306456353034415030143643146432300343, 0x5622043545423212632363110656541411523455233604605663353143541460, 0x2404023331303503244433335153103535230634343036465642124444302214, 0x201301355333313564021344362346465561640444335334124415550251631, 0x4365643016434245450312436125135566346023233033166510661322632330, 0x4664330650523233432160603445133646542326354350565364266323203462, 0x4630034461604020353562220343432655435644355633631662514564435630, 0x333002542234101063324111541535454023623465026634630506636230323, 0x332105411544555136035163133136361135333366414213233351443312655, 0x3234335353356061340453646231521133266334325024263120335103640420, 0x3636123640131321343533605634215636160136243113461263363201001660, 0x3643053335336300541130330562623611614666111345642330156436354320, 0x3512003463043532332536555432411613331305634303656323133653043435, 0x3143534322433114223044232524226562254224263623055315212634453644, 0x2353254112213365533641366315405225366416131006062530554204630333, 0x2323534630242105531154634623024356563243035251335332135035302333] := by
  decide

theorem c1_ref_0 :
    KeccakRef.roundRef c1InputWords 0 =
      [0x0, 0x0, 0x2, 0x10000400, 0x10000000000, 0x100000000000, 0x200000200000, 0x200, 0x0, 0x0, 0x8000, 0x0, 0x0, 0x400, 0x10000000004, 0x1, 0x200000000000, 0x202, 0x10000000, 0x0, 0x100000008000, 0x200000, 0x0, 0x0, 0x4] := by
  decide

theorem c1_ref_1 :
    KeccakRef.roundRef [0x0, 0x0, 0x2, 0x10000400, 0x10000000000, 0x100000000000, 0x200000200000, 0x200, 0x0, 0x0, 0x8000, 0x0, 0x0, 0x400, 0x10000000004, 0x1, 0x200000000000, 0x202, 0x10000000, 0x0, 0x100000008000, 0x200000, 0x0, 0x0, 0x4] 1 =
      [0x30600001e00487, 0x49840d3042220, 0xa50434021856, 0x18404503c382990, 0x80051f8008192199, 0x30c2a83082300106, 0x1834200a0100202, 0x3e0038080b8680, 0x3e08505001040000, 0xc700080080e020e2, 0x8b034000180c101, 0x40038e20070020f0, 0xc400828e0c100043, 0x40c006104386984, 0x5078040153010, 0x2002783081e00400, 0x21855040d0600010, 0x22263020081f14, 0x3980144039030010, 0x4100180008e801a1, 0x18408c000090c102, 0x60030c20247400c2, 0xc41c018a18118181, 0xa08402100074184, 0x6000c00c004306a] := by
  decide

theorem c1_ref_2 :
    KeccakRef.roundRef [0x30600001e00487, 0x49840d3042220, 0xa50434021856, 0x18404503c382990, 0x80051f8008192199, 0x30c2a83082300106, 0x1834200a0100202, 0x3e0038080b8680, 0x3e08505001040000, 0xc700080080e020e2, 0x8b034000180c101, 0x40038e20070020f0, 0xc400828e0c100043, 0x40c006104386984, 0x5078040153010, 0x2002783081e00400, 0x21855040d0600010, 0x22263020081f14, 0x3980144039030010, 0x4100180008e801a1, 0x18408c000090c102, 0x60030c20247400c2, 0xc41c018a18118181, 0xa08402100074184, 0x6000c00c004306a] 2 =
      [0xa808cfdb628fee6f, 0x862b7d971f9b64e7, 0x102781f54288cf67, 0x370ba4aee710b859, 0x6b842132b661551, 0xc75af91e23b8ac7c, 0x388a8d9e7c61e49e, 0x894f166e224abf6e, 0x85c982a22b071ebf, 0xb4604c7a5c2b1ced, 0x2c487ed1f9673c39, 0x82c163d6fb3b8da1, 0x490e3688da186d82, 0xfc41c93adf3b7681, 0xa37b62f62de659af, 0x3114a5bc73a5252, 0x8febc1dbd8b2013, 0x47ca28d17a26cd71, 0xdc1e7f9adfc45f19, 0xa206c4d67bd8912c, 0x2489797e54eb1f09, 0xb7d3163b6d03140b, 0x556293cb6b8ab2ee, 0x587d05bc507cbe7c, 0xef404843396011f1] := by
  decide

theorem c1_ref_3 :
    KeccakRef.roundRef [0xa808cfdb628fee6f, 0x862b7d971f9b64e7, 0x102781f54288cf67, 0x370ba4aee710b859, 0x6b842132b661551, 0xc75af91e23b8ac7c, 0x388a8d9e7c61e49e, 0x894f166e224abf6e, 0x85c982a22b071ebf, 0xb4604c7a5c2b1ced, 0x2c487ed1f9673c39, 0x82c163d6fb3b8da1, 0x490e3688da186d82, 0xfc41c93adf3b7681, 0xa37b62f62de659af, 0x3114a5bc73a5252, 0x8febc1dbd8b2013, 0x47ca28d17a26cd71, 0xdc1e7f9adfc45f19, 0xa206c4d67bd8912c, 0x2489797e54eb1f09, 0xb7d3163b6d03140b, 0x556293cb6b8ab2ee, 0x587d05bc507cbe7c, 0xef404843396011f1] 3 =
      [0xd63295d4de8693f6, 0xc9dcfada65da6f4d, 0xf320db3800db2571, 0x66bb8dee5a885ee9, 0x4bc114c42ebd827b, 0xaa81404468f15cb9, 0x1e96ddfbc6ada835, 0x6cc37dfc04a29b09, 0xc9f9dfeea41124a3, 0xf22b2d2f98e1947d, 0x8b56b9ddb2866c49, 0x4a7b87cd21407d93, 0x607c97a98e1bb996, 0x7af823409c29396, 0x623974df316e0499, 0xf17054705d70d621, 0x4bb72730aaf603bb, 0x7cce26332adeb7d0, 0xf758c39130e2af37, 0x63ca0984c2a8e5e2, 0x29655eaf8d4f7c8d, 0x6604e5afe5c869df, 0xac79115986177f4a, 0xc3f8a227f316bd4c, 0x9a9a47c8bb883c8b] := by
  decide

theorem c1_ref_4 :
    KeccakRef.roundRef [0xd63295d4de8693f6, 0xc9dcfada65da6f4d, 0xf320db3800db2571, 0x66bb8dee5a885ee9, 0x4bc114c42ebd827b, 0xaa81404468f15cb9, 0x1e96ddfbc6ada835, 0x6cc37dfc04a29b09, 0xc9f9dfeea41124a3, 0xf22b2d2f98e1947d, 0x8b56b9ddb2866c49, 0x4a7b87cd21407d93, 0x607c97a98e1bb996, 0x7af823409c29396, 0x623974df316e0499, 0xf17054705d70d621, 0x4bb72730aaf603bb, 0x7cce26332adeb7d0, 0xf758c39130e2af37, 0x63ca0984c2a8e5e2, 0x29655eaf8d4f7c8d, 0x6604e5afe5c869df, 0xac79115986177f4a, 0xc3f8a227f316bd4c, 0x9a9a47c8bb883c8b] 4 =
      [0xaac5e7777d8e4c15, 0x83f147f59454b9c8, 0xcd72a3fdda434c81, 0x82c1daf19ec6ecde, 0x235bd5689ea13a81, 0xa97e85a254c4f17f, 0xe4f4bc496933b52, 0x11caf8bb7abafd91, 0xec97c2ab5ed1a6d2, 0xa5ecc2729d6575d5, 0x899b5b056b5e28ab, 0xfeb5875e4063919b, 0xe81fe60645d96701, 0xef7b8b0e7a811c93, 0xf8ee4a76a16b0711, 0xff8b0cc8a97c6964, 0x58af50d5a99eec28, 0xf465d03e39d6212, 0xd61562c00abd901d, 0x250e071513e6bba0, 0x359fc2f707c962fb, 0x888513121423d76d, 0xeb56d2b95cf06fdf, 0x62c1d9c3fb82c60d, 0x68e2f84f77877bfe] := by
  decide

theorem c1_ref_5 :
    KeccakRef.roundRef [0xaac5e7777d8e4c15, 0x83f147f59454b9c8, 0xcd72a3fdda434c81, 0x82c1daf19ec6ecde, 0x235bd5689ea13a81, 0xa97e85a254c4f17f, 0xe4f4bc496933b52, 0x11caf8bb7abafd91, 0xec97c2ab5ed1a6d2, 0xa5ecc2729d6575d5, 0x899b5b056b5e28ab, 0xfeb5875e4063919b, 0xe81fe60645d96701, 0xef7b8b0e7a811c93, 0xf8ee4a76a16b0711, 0xff8b0cc8a97c6964, 0x58af50d5a99eec28, 0xf465d03e39d6212, 0xd61562c00abd901d, 0x250e071513e6bba0, 0x359fc2f707c962fb, 0x888513121423d76d, 0xeb56d2b95cf06fdf, 0x62c1d9c3fb82c60d, 0x68e2f84f77877bfe] 5 =
      [0x49aa29ad88eac0d9, 0xd903a6391b850905, 0xf5f7b69e384a6a75, 0xe4d8830d932db0fa, 0x3030fc2d7a011d75, 0x8df7751db806dd5e, 0xe94809bc588544c2, 0xf1dab7558c7bb99d, 0x9dc7d212997090da, 0x373448b53ce55765, 0x2983ef0fe8ce8c56, 0xe6ce6993dfb03d6a, 0x61e372c1ab5c7987, 0x39195cbc656751a4, 0x955e5c21c9c5dbe1, 0x802fb09b5b7ccd2b, 0x1d297025f30d0c6, 0x91b0966e5098c297, 0x3a8e71c8d6fd724a, 0xe49e2e43f429c266, 0xe5037e977952f22f, 0xb66b8f38e5cfeb0f, 0x6ecaad579583115a, 0x7c1404eb99e0d4b1, 0x8260e1ad12d604c5] := by
  decide

theorem c1_ref_6 :
    KeccakRef.roundRef [0x49aa29ad88eac0d9, 0xd903a6391b850905, 0xf5f7b69e384a6a75, 0xe4d8830d932db0fa, 0x3030fc2d7a011d75, 0x8df7751db806dd5e, 0xe94809bc588544c2, 0xf1dab7558c7bb99d, 0x9dc7d212997090da, 0x373448b53ce55765, 0x2983ef0fe8ce8c56, 0xe6ce6993dfb03d6a, 0x61e372c1ab5c7987, 0x39195cbc656751a4, 0x955e5c21c9c5dbe1, 0x802fb09b5b7ccd2b, 0x1d297025f30d0c6, 0x91b0966e5098c297, 0x3a8e71c8d6fd724a, 0xe49e2e43f429c266, 0xe5037e977952f22f, 0xb66b8f38e5cfeb0f, 0x6ecaad579583115a, 0x7c1404eb99e0d4b1, 0x8260e1ad12d604c5] 6 =
      [0x775410b03d83476b, 0x6e96d3dcc4dcfb62, 0xf525252f7e364d2a, 0xb4581c8022019df3, 0xaa9ab848932ae273, 0x8849c452da65ceb6, 0xf2017cdd8b75a2eb, 0x79df4f35a5c71c81, 0xb7e9e7766b891208, 0x278c5b185fa5f095, 0xaa459e377f3b56f1, 0xce3163855cbe02a, 0x3e59bae0e031f909, 0x7903a41502492d36, 0xc8b1acadc764ed4b, 0x5bac4714953fad75, 0x35084f8cff5b46f, 0x4642d74ce4a726d1, 0x1091a405345acddf, 0xdfe710314578a406, 0x6840fd735f97abc4, 0xd7cf56305c9418d2, 0x9409a1d8a95f217a, 0x864039dfa35aba30, 0x1d07df7c3326627e] := by
  decide

theorem c1_ref_7 :
    KeccakRef.roundRef [0x775410b03d83476b, 0x6e96d3dcc4dcfb62, 0xf525252f7e364d2a, 0xb4581c8022019df3, 0xaa9ab848932ae273, 0x8849c452da65ceb6, 0xf2017cdd8b75a2eb, 0x79df4f35a5c71c81, 0xb7e9e7766b891208, 0x278c5b185fa5f095, 0xaa459e377f3b56f1, 0xce3163855cbe02a, 0x3e59bae0e031f909, 0x7903a41502492d36, 0xc8b1acadc764ed4b, 0x5bac4714953fad75, 0x35084f8cff5b46f, 0x4642d74ce4a726d1, 0x1091a405345acddf, 0xdfe710314578a406, 0x6840fd735f97abc4, 0xd7cf56305c9418d2, 0x9409a1d8a95f217a, 0x864039dfa35aba30, 0x1d07df7c3326627e] 7 =
      [0x647b63719754cc13, 0x3ee93b7bf637325b, 0x86d5e2d7f3f4b6f6, 0x8ea6ed04eaeb65e7, 0x6e99b5f208579b25, 0xa371f3a1e6848826, 0x7b53f7ede85c44d7, 0x200778426b57f61e, 0xa6a9703992b28047, 0x67e76f3555d62ee5, 0x9c8d6850ddc02df3, 0xbf02a1f62e090e7e, 0xda5eb48c55158a26, 0x296743d16423236a, 0x5abc0761c5f3a985, 0x4409b5da42bf2a22, 0x509f89cb3a3c6850, 0x9295190954456db3, 0x5414e812816926f0, 0xcfe6a544fac83936, 0x7dbfa0316ae14805, 0xfe1c904e1b683ee1, 0x2f66b2f63b4bf7f6, 0x9c8e39c9072e54af, 0x9ce9fef4bf71a170] := by
  decide

theorem c1_ref_8 :
    KeccakRef.roundRef [0x647b63719754cc13, 0x3ee93b7bf637325b, 0x86d5e2d7f3f4b6f6, 0x8ea6ed04eaeb65e7, 0x6e99b5f208579b25, 0xa371f3a1e6848826, 0x7b53f7ede85c44d7, 0x200778426b57f61e, 0xa6a9703992b28047, 0x67e76f3555d62ee5, 0x9c8d6850ddc02df3, 0xbf02a1f62e090e7e, 0xda5eb48c55158a26, 0x296743d16423236a, 0x5abc0761c5f3a985, 0x4409b5da42bf2a22, 0x509f89cb3a3c6850, 0x9295190954456db3, 0x5414e812816926f0, 0xcfe6a544fac83936, 0x7dbfa0316ae14805, 0xfe1c904e1b683ee1, 0x2f66b2f63b4bf7f6, 0x9c8e39c9072e54af, 0x9ce9fef4bf71a170] 8 =
      [0xbabeea04280e0247, 0x9a09943fdd62347a, 0x8312a03b61efc1b7, 0xe6cf9cb640c5d860, 0x1f9532d3977a046a, 0xa74e640af3af4064, 0xef7e954eb9e93953, 0x68558ab88d36cfc7, 0x47d460cc625f9d72, 0x5e3889d18bc0de8, 0x83602ec6c23b86f9, 0x40bad3564ed5722, 0xa466cb09d9413453, 0x2ebd7c410413c621, 0x1d91cad380d6706, 0xf6288b3d85eceb4f, 0x3e1e59d8bc60edd2, 0x88a5d0b83e2c60fa, 0x7ec5b4a32b5195f7, 0x43f366f2b4b56c97, 0x15fb0723a902d758, 0x8e64f71fd9b34a39, 0xb9cae67797dacdfc, 0xf80cc85fbe02fa77, 0x7e6f30a4a7937950] := by
  decide

theorem c1_ref_9 :
    KeccakRef.roundRef [0xbabeea04280e0247, 0x9a09943fdd62347a, 0x8312a03b61efc1b7, 0xe6cf9cb640c5d860, 0x1f9532d3977a046a, 0xa74e640af3af4064, 0xef7e954eb9e93953, 0x68558ab88d36cfc7, 0x47d460cc625f9d72, 0x5e3889d18bc0de8, 0x83602ec6c23b86f9, 0x40bad3564ed5722, 0xa466cb09d9413453, 0x2ebd7c410413c621, 0x1d91cad380d6706, 0xf6288b3d85eceb4f, 0x3e1e59d8bc60edd2, 0x88a5d0b83e2c60fa, 0x7ec5b4a32b5195f7, 0x43f366f2b4b56c97, 0x15fb0723a902d758, 0x8e64f71fd9b34a39, 0xb9cae67797dacdfc, 0xf80cc85fbe02fa77, 0x7e6f30a4a7937950] 9 =
      [0x5a6c02c569571583, 0xa3ba068e5b3853e7, 0x51c689826f0bc73d, 0x4db8b4dabefd2117, 0xb59cb7f41ba23767, 0x5b2aded13b7267d4, 0x5e68f8c02be463fc, 0x45fb8da43f1e197, 0x8ebab1cf27a74617, 0x4b10d526781ad0d, 0xd969b3aad7954f27, 0x4c034bc73738bdef, 0x3700e31c0198ce40, 0xaaaef63761bc64a4, 0xfe325feb8aab5c95, 0xe0b7a42ac4254808, 0x875480b76110b4ce, 0x55fe19a43d307154, 0x742c4ec95c7dbe2, 0x720a5900392af8ac, 0x2188767bfe558f59, 0xf1c7d931666cff4, 0xe8c16ae27cc1ec99, 0xcf45f696840a15cf, 0x1f1bab51364bb4d9] := by
  decide

theorem c1_ref_10 :
    KeccakRef.roundRef [0x5a6c02c569571583, 0xa3ba068e5b3853e7, 0x51c689826f0bc73d, 0x4db8b4dabefd2117, 0xb59cb7f41ba23767, 0x5b2aded13b7267d4, 0x5e68f8c02be463fc, 0x45fb8da43f1e197, 0x8ebab1cf27a74617, 0x4b10d526781ad0d, 0xd969b3aad7954f27, 0x4c034bc73738bdef, 0x3700e31c0198ce40, 0xaaaef63761bc64a4, 0xfe325feb8aab5c95, 0xe0b7a42ac4254808, 0x875480b76110b4ce, 0x55fe19a43d307154, 0x742c4ec95c7dbe2, 0x720a5900392af8ac, 0x2188767bfe558f59, 0xf1c7d931666cff4, 0xe8c16ae27cc1ec99, 0xcf45f696840a15cf, 0x1f1bab51364bb4d9] 10 =
      [0x1a6bfb2005668663, 0x5f3495645bf54e53, 0xcd928ad5bf1ff238, 0x9fd66abe1db659, 0x9125359795a99306, 0x4ca7e5312cf6878, 0x189d0ff0f5a6c355, 0x36810ad3eebafc9a, 0x723439ea3bd72ffc, 0x89ee2e3dc1032974, 0x406a4510e00349d0, 0x8b7fce99edd79a22, 0x20e08ad35b34ab62, 0x845fcbe1ddd1e80, 0x4ab708a3fe8b745e, 0xe1335278c399b5a3, 0xdb0fb6016aee4f7b, 0xb8e98cd1b7946038, 0xc2b39dfa93dd5790, 0x8a76d89abf98757d, 0x6002f8ae1d042618, 0x1ff8cd125a0de1fd, 0x1c5c6a4edc1ada6d, 0xe1a8c21236bc2642, 0xed29519e6feae50f] := by
  decide

theorem c1_ref_11 :
    KeccakRef.roundRef [0x1a6bfb2005668663, 0x5f3495645bf54e53, 0xcd928ad5bf1ff238, 0x9fd66abe1db659, 0x9125359795a99306, 0x4ca7e5312cf6878, 0x189d0ff0f5a6c355, 0x36810ad3eebafc9a, 0x723439ea3bd72ffc, 0x89ee2e3dc1032974, 0x406a4510e00349d0, 0x8b7fce99edd79a22, 0x20e08ad35b34ab62, 0x845fcbe1ddd1e80, 0x4ab708a3fe8b745e, 0xe1335278c399b5a3, 0xdb0fb6016aee4f7b, 0xb8e98cd1b7946038, 0xc2b39dfa93dd5790, 0x8a76d89abf98757d, 0x6002f8ae1d042618, 0x1ff8cd125a0de1fd, 0x1c5c6a4edc1ada6d, 0xe1a8c21236bc2642, 0xed29519e6feae50f] 11 =
      [0x706ec1180e3f8f3, 0x2a6a73a6f367b7ec, 0xdc6437607fa7a524, 0xf9c2542347c2a67d, 0x2179d89bdd925c30, 0x278db92f5431ac5b, 0x82bdcdbf75ef732e, 0x941e6b9ee54e61aa, 0xfba32a59247a2357, 0xd647a364dd2ff9f0, 0x20f1916e7586266a, 0x41ddff6dfbc7cbf, 0x571797946dce53a2, 0xffa5fb0b9b11c0bd, 0x64646f12d17ce776, 0xb40500f2b9245f6, 0x4c8ec72deae6a200, 0x4b8423f02ba6661d, 0xa1c644cb439364b1, 0xac95571b1d04a730, 0xf42ae36146eb0073, 0x81e6ebe289906aad, 0x82008f153eb930fb, 0xbbdc142d00b6a4d8, 0x54dd2c1d8171eb3b] := by
  decide

theorem c1_ref_12 :
    KeccakRef.roundRef [0x706ec1180e3f8f3, 0x2a6a73a6f367b7ec, 0xdc6437607fa7a524, 0xf9c2542347c2a67d, 0x2179d89bdd925c30, 0x278db92f5431ac5b, 0x82bdcdbf75ef732e, 0x941e6b9ee54e61aa, 0xfba32a59247a2357, 0xd647a364dd2ff9f0, 0x20f1916e7586266a, 0x41ddff6dfbc7cbf, 0x571797946dce53a2, 0xffa5fb0b9b11c0bd, 0x64646f12d17ce776, 0xb40500f2b9245f6, 0x4c8ec72deae6a200, 0x4b8423f02ba6661d, 0xa1c644cb439364b1, 0xac95571b1d04a730, 0xf42ae36146eb0073, 0x81e6ebe289906aad, 0x82008f153eb930fb, 0xbbdc142d00b6a4d8, 0x54dd2c1d8171eb3b] 12 =
      [0x2a461f995b2ca50a, 0xcc64300f4c6cd622, 0xfe180413f1e18888, 0x87a30317a1a239f5, 0x8aa33a560d8235b1, 0x31a797b7a73db3a0, 0x47fb137c903d0cb0, 0x1872603ab825100e, 0x9e0e2bafb3266667, 0xa9c16ebba4c385b, 0x2d28743ff03d50c4, 0xebf593a3a147804f, 0x5e8862a05b3c4a27, 0x673679e07ec292b7, 0x29295ee87f807537, 0xd44bb98d392f28ab, 0x4deb0044ffaba323, 0x336bf619a7279cc1, 0xf71ca43dbd0ad8eb, 0x9b7495e73d8fe699, 0x71500652867cdba2, 0x4cc2b5d41217496b, 0x2c6ea856081e04c3, 0x87198c5507c91a8, 0xae48f129f3fb59be] := by
  decide

theorem c1_ref_13 :
    KeccakRef.roundRef [0x2a461f995b2ca50a, 0xcc64300f4c6cd622, 0xfe180413f1e18888, 0x87a30317a1a239f5, 0x8aa33a560d8235b1, 0x31a797b7a73db3a0, 0x47fb137c903d0cb0, 0x1872603ab825100e, 0x9e0e2bafb3266667, 0xa9c16ebba4c385b, 0x2d28743ff03d50c4, 0xebf593a3a147804f, 0x5e8862a05b3c4a27, 0x673679e07ec292b7, 0x29295ee87f807537, 0xd44bb98d392f28ab, 0x4deb0044ffaba323, 0x336bf619a7279cc1, 0xf71ca43dbd0ad8eb, 0x9b7495e73d8fe699, 0x71500652867cdba2, 0x4cc2b5d41217496b, 0x2c6ea856081e04c3, 0x87198c5507c91a8, 0xae48f129f3fb59be] 13 =
      [0x57b1dec4fa6119e8, 0x14dcf69de2b9197d, 0xb8138c355f7c6d7b, 0x835a90e89c9cf0ee, 0x52359c27b5b7f6ea, 0x4020f3e5699cd7cf, 0xed3f27f8d20a582e, 0x7adc1fd014ace23, 0xfa36a3d8e50e15e7, 0x997054292741a4b0, 0x5fc951ff122a00da, 0xe7a6012f1431a485, 0xe3a336218fb5777b, 0xf4d8fb01937ea986, 0x5d251875dce9bca4, 0x4e69234b77c9d2cc, 0xf97fd466cf28f8c5, 0xb6d24725891f07e4, 0x2db055489c5518ae, 0x8d3bcdea5b8fa941, 0xeaaae0d6a3cf542f, 0xaaf86e491e727ace, 0xefe8fb7627a3a2fb, 0xfc2693c3ca4a6a26, 0xc587009f9b54d68b] := by
  decide

theorem c1_ref_14 :
    KeccakRef.roundRef [0x57b1dec4fa6119e8, 0x14dcf69de2b9197d, 0xb8138c355f7c6d7b, 0x835a90e89c9cf0ee, 0x52359c27b5b7f6ea, 0x4020f3e5699cd7cf, 0xed3f27f8d20a582e, 0x7adc1fd014ace23, 0xfa36a3d8e50e15e7, 0x997054292741a4b0, 0x5fc951ff122a00da, 0xe7a6012f1431a485, 0xe3a336218fb5777b, 0xf4d8fb01937ea986, 0x5d251875dce9bca4, 0x4e69234b77c9d2cc, 0xf97fd466cf28f8c5, 0xb6d24725891f07e4, 0x2db055489c5518ae, 0x8d3bcdea5b8fa941, 0xeaaae0d6a3cf542f, 0xaaf86e491e727ace, 0xefe8fb7627a3a2fb, 0xfc2693c3ca4a6a26, 0xc587009f9b54d68b] 14 =
      [0xc640b511c46c602d, 0xd773264a735ef086, 0x9836e59a16c0c855, 0xa046f97100fc27cb, 0xbdccfaafe3bc7712, 0xebfc16a56891550f, 0x6a13560b9187f983, 0x7b64b8405afb555b, 0x89ce0e4132e56c75, 0xe411ddce556b3ae6, 0x37fb3b4e4b2a20e3, 0x6f84847503dd893d, 0x27b25d419709a709, 0x75d86b8bdca79321, 0x44fd8c8f44d04d16, 0xb4da9dd7b8fef687, 0x1e760490d00e90c6, 0x4eceaf7a7221d048, 0xf02603a8f87f3f18, 0xd762c5a5b06ccd4f, 0xf7e0ee3fbf564f31, 0xb2c9a5e7298767c7, 0xd9ca2420b5c25a14, 0x21fb3b85160af62a, 0x1e18da4712b685f0] := by
  decide

theorem c1_ref_15 :
    KeccakRef.roundRef [0xc640b511c46c602d, 0xd773264a735ef086, 0x9836e59a16c0c855, 0xa046f97100fc27cb, 0xbdccfaafe3bc7712, 0xebfc16a56891550f, 0x6a13560b9187f983, 0x7b64b8405afb555b, 0x89ce0e4132e56c75, 0xe411ddce556b3ae6, 0x37fb3b4e4b2a20e3, 0x6f84847503dd893d, 0x27b25d419709a709, 0x75d86b8bdca79321, 0x44fd8c8f44d04d16, 0xb4da9dd7b8fef687, 0x1e760490d00e90c6, 0x4eceaf7a7221d048, 0xf02603a8f87f3f18, 0xd762c5a5b06ccd4f, 0xf7e0ee3fbf564f31, 0xb2c9a5e7298767c7, 0xd9ca2420b5c25a14, 0x21fb3b85160af62a, 0x1e18da4712b685f0] 15 =
      [0xdbe9ec697724bdaa, 0xdb629b4dabc3086d, 0x85e2f2887a65b7b1, 0xa7538cd142aed761, 0x99bcbc02faa052d6, 0x655e523c63939d82, 0xee9df2111f55cfd3, 0xa453ded88289819c, 0xd32ba3d5bdb3e91d, 0x237bbbccc92c6cef, 0x5407e1f558f263bf, 0xcefd63fc0dc61f35, 0xe8addc15b0808f7c, 0xe1840f01ce6278d7, 0xa70d0a3dda375b31, 0x1fb619b5fa3b1b77, 0x89b0421205754fe8, 0x87274b4ce4c3038a, 0xd1455ea15a2a76c0, 0x2070c05a54d2109f, 0x14147350b4e2fd4a, 0xce21e8e3d0826a4f, 0xab483e402606c19e, 0x9ef7f8f802a99303, 0x9739cb3a66666026] := by
  decide

theorem c1_ref_16 :
    KeccakRef.roundRef [0xdbe9ec697724bdaa, 0xdb629b4dabc3086d, 0x85e2f2887a65b7b1, 0xa7538cd142aed761, 0x99bcbc02faa052d6, 0x655e523c63939d82, 0xee9df2111f55cfd3, 0xa453ded88289819c, 0xd32ba3d5bdb3e91d, 0x237bbbccc92c6cef, 0x5407e1f558f263bf, 0xcefd63fc0dc61f35, 0xe8addc15b0808f7c, 0xe1840f01ce6278d7, 0xa70d0a3dda375b31, 0x1fb619b5fa3b1b77, 0x89b0421205754fe8, 0x87274b4ce4c3038a, 0xd1455ea15a2a76c0, 0x2070c05a54d2109f, 0x14147350b4e2fd4a, 0xce21e8e3d0826a4f, 0xab483e402606c19e, 0x9ef7f8f802a99303, 0x9739cb3a66666026] 16 =
      [0xcd8623b1440934ed, 0x6268d903bea096ed, 0x76780115bd3c6ccf, 0xd7b3f7220699993d, 0x67a20dca7e9301c0, 0x86a363cfef92e921, 0x498d0ec57c7d9b9d, 0xa70a58217e2225f5, 0x94203cc1e13a007f, 0x8a644da695ec30a, 0xd65fb738270f888d, 0x708d451e40257662, 0xd13c3b4e4d50c4e, 0xe676d16c0259f550, 0xb57d089638ec5b1f, 0x2876771cf586abe6, 0x99bf9023a4bd3a13, 0x8e5c962ad40dcec9, 0xbee68124222ef302, 0x5d4444c6ef9c6327, 0xa9f413c8aca98a08, 0xf78b88fa6f04acf3, 0x9ead6a8f2e5ff90f, 0xfbe5c176d9ec62cb, 0xc502e3d851c1ce11] := by
  decide

theorem c1_ref_17 :
    KeccakRef.roundRef [0xcd8623b1440934ed, 0x6268d903bea096ed, 0x76780115bd3c6ccf, 0xd7b3f7220699993d, 0x67a20dca7e9301c0, 0x86a363cfef92e921, 0x498d0ec57c7d9b9d, 0xa70a58217e2225f5, 0x94203cc1e13a007f, 0x8a644da695ec30a, 0xd65fb738270f888d, 0x708d451e40257662, 0xd13c3b4e4d50c4e, 0xe676d16c0259f550, 0xb57d089638ec5b1f, 0x2876771cf586abe6, 0x99bf9023a4bd3a13, 0x8e5c962ad40dcec9, 0xbee68124222ef302, 0x5d4444c6ef9c6327, 0xa9f413c8aca98a08, 0xf78b88fa6f04acf3, 0x9ead6a8f2e5ff90f, 0xfbe5c176d9ec62cb, 0xc502e3d851c1ce11] 17 =
      [0xd2c768c4e88f2fba, 0x283d610557cd4755, 0xf426e6639132ed2c, 0x6cfabb030b1605d1, 0x42594f97cefb3ac, 0x220f3c58fdf1bb6f, 0xdc858b6ab8c5ca27, 0x42a7d2b235f1f0b, 0x9a15d897091e9200, 0x594e4bee33fba490, 0xb8164a983e736285, 0xa4e47399d81b6e3, 0xcbcdb2f9dd49bab9, 0x662678cea738407c, 0xb29f3958da6e638a, 0xe7d9390936b305c9, 0x1db321921fef8413, 0xf1773b6c5323ba64, 0xf259613dda8dd079, 0x8fa07568a1d7e370, 0xf06c5c87fe2ba28b, 0xde368f61b1ab0200, 0x12ff50714a10d10e, 0x965da5aed8146ad9, 0x12985e169354b7d6] := by
  decide

theorem c1_ref_18 :
    KeccakRef.roundRef [0xd2c768c4e88f2fba, 0x283d610557cd4755, 0xf426e6639132ed2c, 0x6cfabb030b1605d1, 0x42594f97cefb3ac, 0x220f3c58fdf1bb6f, 0xdc858b6ab8c5ca27, 0x42a7d2b235f1f0b, 0x9a15d897091e9200, 0x594e4bee33fba490, 0xb8164a983e736285, 0xa4e47399d81b6e3, 0xcbcdb2f9dd49bab9, 0x662678cea738407c, 0xb29f3958da6e638a, 0xe7d9390936b305c9, 0x1db321921fef8413, 0xf1773b6c5323ba64, 0xf259613dda8dd079, 0x8fa07568a1d7e370, 0xf06c5c87fe2ba28b, 0xde368f61b1ab0200, 0x12ff50714a10d10e, 0x965da5aed8146ad9, 0x12985e169354b7d6] 18 =
      [0x10d1a2d91b47b288, 0xe20eb53e70e2d379, 0x5c289b356744054c, 0x6b62fe0a02157f1d, 0x1b161f6f161eeafa, 0xf61c360df3ebfcc8, 0x854ca94e14be27bb, 0x995c6752d27bd7b3, 0x2661e7943e9affa0, 0xb3c0b69d51c099c9, 0x65d920bf8224e40e, 0xb501654537e28507, 0xb9d2dfd8285b1aaa, 0x8901bdf5cac49a14, 0x139f6275287395f8, 0xf4b83a1b81e5e62d, 0xb577c4d9bf8878d0, 0xbab2bf5b6641132c, 0x555defe06a0bd02, 0xbf39fc48d0ee13f3, 0x9c6d045c162fa677, 0xe9e5892f1c814944, 0xfb0e68ce2a38ec7e, 0x4c474defc0951b55, 0x90b1f83937e024f5] := by
  decide

theorem c1_ref_19 :
    KeccakRef.roundRef [0x10d1a2d91b47b288, 0xe20eb53e70e2d379, 0x5c289b356744054c, 0x6b62fe0a02157f1d, 0x1b161f6f161eeafa, 0xf61c360df3ebfcc8, 0x854ca94e14be27bb, 0x995c6752d27bd7b3, 0x2661e7943e9affa0, 0xb3c0b69d51c099c9, 0x65d920bf8224e40e, 0xb501654537e28507, 0xb9d2dfd8285b1aaa, 0x8901bdf5cac49a14, 0x139f6275287395f8, 0xf4b83a1b81e5e62d, 0xb577c4d9bf8878d0, 0xbab2bf5b6641132c, 0x555defe06a0bd02, 0xbf39fc48d0ee13f3, 0x9c6d045c162fa677, 0xe9e5892f1c814944, 0xfb0e68ce2a38ec7e, 0x4c474defc0951b55, 0x90b1f83937e024f5] 19 =
      [0x65eab0a271487b6a, 0x6d0456aba852ed6a, 0xc302fbdd09fa4e3f, 0x2d48c3ac16235d62, 0xa31367fd39ed77f9, 0x23af2a5a6691db20, 0x22a13e1cd11c723, 0x231224de54aa3b92, 0x1fcaee4cba1d5615, 0x9ad8019cc527123a, 0xd9b638230494e07f, 0xa91ecb762faf63bd, 0x796d0a3d7edf94f0, 0xd8a68dd23339da9b, 0xc716f5b1c0ea47fa, 0x5c9a491412ee0431, 0x5cdc3de0c20873d0, 0xdbdb8fd70073c2bb, 0xe05dc41c597d6fa7, 0xfb3dd7c8b3fd90cb, 0x921b6959fdeb9f29, 0x2f2820e648d96523, 0x5451d4545916e974, 0x747b6159dd58200f, 0x294d41ba1be88030] := by
  decide

theorem c1_ref_20 :
    KeccakRef.roundRef [0x65eab0a271487b6a, 0x6d0456aba852ed6a, 0xc302fbdd09fa4e3f, 0x2d48c3ac16235d62, 0xa31367fd39ed77f9, 0x23af2a5a6691db20, 0x22a13e1cd11c723, 0x231224de54aa3b92, 0x1fcaee4cba1d5615, 0x9ad8019cc527123a, 0xd9b638230494e07f, 0xa91ecb762faf63bd, 0x796d0a3d7edf94f0, 0xd8a68dd23339da9b, 0xc716f5b1c0ea47fa, 0x5c9a491412ee0431, 0x5cdc3de0c20873d0, 0xdbdb8fd70073c2bb, 0xe05dc41c597d6fa7, 0xfb3dd7c8b3fd90cb, 0x921b6959fdeb9f29, 0x2f2820e648d96523, 0x5451d4545916e974, 0x747b6159dd58200f, 0x294d41ba1be88030] 20 =
      [0x77bce1894ab48fc5, 0xbc5a1a6f0805fb30, 0x9423f399b9aa7e04, 0x39d93b10348a4eb4, 0x18d003d2bc0cd1eb, 0xc2f652b70c37f7c5, 0xa5aa2b1e655c4a8b, 0xb8222e77e5e06abd, 0x6b69556d7530c2cc, 0x8041b8437388817e, 0x3d19a870984b3cc7, 0xeac00dfc1e71c61f, 0x8fe69238d85a0ee9, 0x32fc33b3ee36c139, 0x6f23451e312f94cc, 0xe8d104713edfd767, 0x5010ead0da9fa80b, 0xe87d8788b02f6b7b, 0x770cfb03ba2863ed, 0x1fb2bbea0b179b71, 0xf693a1de2bd0a816, 0x398ddbcde348168e, 0xb66045024b51609b, 0x1da5654192704374, 0x4e13e818980bdae7] := by
  decide

theorem c1_ref_21 :
    KeccakRef.roundRef [0x77bce1894ab48fc5, 0xbc5a1a6f0805fb30, 0x9423f399b9aa7e04, 0x39d93b10348a4eb4, 0x18d003d2bc0cd1eb, 0xc2f652b70c37f7c5, 0xa5aa2b1e655c4a8b, 0xb8222e77e5e06abd, 0x6b69556d7530c2cc, 0x8041b8437388817e, 0x3d19a870984b3cc7, 0xeac00dfc1e71c61f, 0x8fe69238d85a0ee9, 0x32fc33b3ee36c139, 0x6f23451e312f94cc, 0xe8d104713edfd767, 0x5010ead0da9fa80b, 0xe87d8788b02f6b7b, 0x770cfb03ba2863ed, 0x1fb2bbea0b179b71, 0xf693a1de2bd0a816, 0x398ddbcde348168e, 0xb66045024b51609b, 0x1da5654192704374, 0x4e13e818980bdae7] 21 =
      [0xf7cc047555232cd3, 0x1acd8e1819ea0a99, 0x6fb184fafda24a83, 0x833f7f2e119a6c5f, 0x960156582734c040, 0xb8aaddaa69bda27a, 0x77f25071899ba170, 0x9b90b847b86670b3, 0x1809532fa7f8cc2a, 0x55807821acdd6211, 0x6a15564da5924c86, 0x9753958061fb1386, 0x8460eddf115143, 0x2a7d66de1a7a6f94, 0xdc678539ff06d005, 0xc4b4068971052fae, 0x581d49dcad746087, 0x513cbb801b96a2d8, 0x4d614f324f377e1d, 0xb4019cb70ddf7356, 0x602a7f922fd423e2, 0x405c25a8ea227a53, 0x91e4a463fba5faff, 0xc94fc39f80fc9a95, 0xb4b40b9383995c60] := by
  decide

theorem c1_ref_22 :
    KeccakRef.roundRef [0xf7cc047555232cd3, 0x1acd8e1819ea0a99, 0x6fb184fafda24a83, 0x833f7f2e119a6c5f, 0x960156582734c040, 0xb8aaddaa69bda27a, 0x77f25071899ba170, 0x9b90b847b86670b3, 0x1809532fa7f8cc2a, 0x55807821acdd6211, 0x6a15564da5924c86, 0x9753958061fb1386, 0x8460eddf115143, 0x2a7d66de1a7a6f94, 0xdc678539ff06d005, 0xc4b4068971052fae, 0x581d49dcad746087, 0x513cbb801b96a2d8, 0x4d614f324f377e1d, 0xb4019cb70ddf7356, 0x602a7f922fd423e2, 0x405c25a8ea227a53, 0x91e4a463fba5faff, 0xc94fc39f80fc9a95, 0xb4b40b9383995c60] 22 =
      [0x36a8f857e58f27f, 0x4716a14ab7c3e20e, 0x702666b8ff662316, 0x952a271702d918de, 0x8627f5dab958642c, 0x51b06f1c4978f669, 0xd69d09657845a156, 0xdab16cc420385ee9, 0x227b42ee52d87f99, 0x5e458b08709c0909, 0x4a6dab8631c2d6a0, 0xfac4f4fa32bb21fc, 0x8b3b0e94f8804c06, 0x5879ad3e6947966e, 0x8057cd4152e178b3, 0x6ade66e01799dd44, 0x87ad56565f9859a6, 0xa7a308827cf982c2, 0x177e218718e725db, 0xcf61407b0bd0af04, 0x28c0223f4e7ce6d6, 0xe539908054cb80ce, 0xfab7fb627bfc7f80, 0xd3724bd89aa9f109, 0x47bb731f1cc38f8e] := by
  decide

theorem c1_ref_23 :
    KeccakRef.roundRef [0x36a8f857e58f27f, 0x4716a14ab7c3e20e, 0x702666b8ff662316, 0x952a271702d918de, 0x8627f5dab958642c, 0x51b06f1c4978f669, 0xd69d09657845a156, 0xdab16cc420385ee9, 0x227b42ee52d87f99, 0x5e458b08709c0909, 0x4a6dab8631c2d6a0, 0xfac4f4fa32bb21fc, 0x8b3b0e94f8804c06, 0x5879ad3e6947966e, 0x8057cd4152e178b3, 0x6ade66e01799dd44, 0x87ad56565f9859a6, 0xa7a308827cf982c2, 0x177e218718e725db, 0xcf61407b0bd0af04, 0x28c0223f4e7ce6d6, 0xe539908054cb80ce, 0xfab7fb627bfc7f80, 0xd3724bd89aa9f109, 0x47bb731f1cc38f8e] 23 =
      [0xe2a944396f0b13c6, 0x25b8444d0aea8b74, 0x23fbed32ed720767, 0xbca1b8d9d0d82fc, 0x333256c252840104, 0x70fec06ceb0b06c4, 0x9396ef8130f1be5c, 0xac2329d693b10d76, 0xe2ad33926d474c63, 0x9f111faa6a08d2e5, 0x721dfc5018f27a42, 0x87a98f12b6ad542c, 0x493d4a7a941b2026, 0x6a5415a4ebed8dfe, 0x6d1f6a874f916feb, 0x64a2af57149f7096, 0x727078041f4f63f7, 0x700069b797e2f86c, 0xed6a86e4fecbac62, 0xf716ae69d3a57f06, 0xd3bc0b3f2712e2e6, 0x92cbec3174d6f74a, 0x95d8e3aee6fc4b8c, 0xd86e73c1b945a137, 0xf5a843755d5374af] := by
  decide

set_option maxRecDepth 4000 in
theorem assign_all_false_decomp (s : KState) :
    assign_all s false [] = mixStage false [] (applyRound 23 (applyRound 22 (applyRound 21 (applyRound 20 (applyRound 19 (applyRound 18 (applyRound 17 (applyRound 16 (applyRound 15 (applyRound 14 (applyRound 13 (applyRound 12 (applyRound 11 (applyRound 10 (applyRound 9 (applyRound 8 (applyRound 7 (applyRound 6 (applyRound 5 (applyRound 4 (applyRound 3 (applyRound 2 (applyRound 1 (applyRound 0 s)))))))))))))))))))))))) := rfl

set_option maxRecDepth 4000 in
theorem keccakF_decomp (s : List Nat) :
    KeccakRef.keccakF s = (KeccakRef.roundRef (KeccakRef.roundRef (KeccakRef.roundRef (KeccakRef.roundRef (KeccakRef.roundRef (KeccakRef.roundRef (KeccakRef.roundRef (KeccakRef.roundRef (KeccakRef.roundRef (KeccakRef.roundRef (KeccakRef.roundRef (KeccakRef.roundRef (KeccakRef.roundRef (KeccakRef.roundRef (KeccakRef.roundRef (KeccakRef.roundRef (KeccakRef.roundRef (KeccakRef.roundRef (KeccakRef.roundRef (KeccakRef.roundRef (KeccakRef.roundRef (KeccakRef.roundRef (KeccakRef.roundRef (KeccakRef.roundRef s 0) 1) 2) 3) 4) 5) 6) 7) 8) 9) 10) 11) 12) 13) 14) 15) 16) 17) 18) 19) 20) 21) 22) 23) := rfl

/-- C1: on the all-zero-but-bit-0 input state (encoded lane-wise into the
circuit's digit alphabet), running the permutation circuit — the 24-round
controller `assign_all` followed by the mixing stage with MixingFlag = false
and no next-block lanes — yields exactly the reference Keccak-f[1600]
permutation of that single-bit input, re-expressed in the circuit's lane
encoding (digit-wise logical bits). -/
theorem c1_single_bit_permutation :
    stateBits9 (assign_all (c1InputWords.map laneBitsOfWord) false []) =
      (KeccakRef.keccakF c1InputWords).map laneBitsOfWord := by
  rw [assign_all_false_decomp, keccakF_decomp, c1_round_0, c1_round_1, c1_round_2, c1_round_3, c1_round_4, c1_round_5, c1_round_6, c1_round_7, c1_round_8, c1_round_9, c1_round_10, c1_round_11, c1_round_12, c1_round_13, c1_round_14, c1_round_15, c1_round_16, c1_round_17, c1_round_18, c1_round_19, c1_round_20, c1_round_21, c1_round_22, c1_round_23, c1_ref_0, c1_ref_1, c1_ref_2, c1_ref_3, c1_ref_4, c1_ref_5, c1_ref_6, c1_ref_7, c1_ref_8, c1_ref_9, c1_ref_10, c1_ref_11, c1_ref_12, c1_ref_13, c1_ref_14, c1_ref_15, c1_ref_16, c1_ref_17, c1_ref_18, c1_ref_19, c1_ref_20, c1_ref_21, c1_ref_22, c1_ref_23]
  decide


/-- C3: the round controller's schedule.  `assign_all` executes exactly 24
rounds in increasing order: each of the 23 non-final rounds applies Theta,
Rho, Pi, Xi, then Iota with round constant i, then one base conversion back
to Theta's domain; the final round (index 23) applies only Theta, Rho, Pi,
Xi, after which the state goes straight to the mixing gate. -/
theorem round_controller_schedule :
    assignAllOps =
      ((List.range 23).map fun i =>
          [KOp.theta, KOp.rho, KOp.pi, KOp.xi, KOp.iota i, KOp.conv]).flatten ++
        [KOp.theta, KOp.rho, KOp.pi, KOp.xi, KOp.mix] := by
  decide

/-- Counterexample for C7: in round 0 (a non-final round) the Digit-Base
Conversion Engine is invoked exactly once, not twice as claimed, so the
claim fails already at round index 0. -/
theorem conv_count_round0_not_two :
    ¬ (codeRoundOps 0).count KOp.conv = 2 := by
  decide

/-- C7 (amended): in every non-final round the Digit-Base Conversion Engine
is invoked exactly once — leaving Iota, converting base-9 back to base-13 —
immediately after the Iota stage (the conversion into base-9 happens inside
the Rho stage, not as a separate engine invocation), and in the final round
(index 23) the engine is not invoked at all. -/
theorem conv_once_per_nonfinal_round (i : Nat) (h : i < 23) :
    (codeRoundOps i).count KOp.conv = 1 ∧
      codeRoundOps i = [KOp.theta, KOp.rho, KOp.pi, KOp.xi, KOp.iota i, KOp.conv] ∧
      (codeRoundOps 23).count KOp.conv = 0 := by
  have hne : ¬ i = PERMUTATION - 1 := by
    simp only [PERMUTATION]
    omega
  refine ⟨?_, ?_, by decide⟩ <;>
    simp [codeRoundOps, hne, List.count_cons, List.count_nil]

/-- Witness for C7 (amended) at round index 0. -/
theorem conv_once_per_nonfinal_round_witness :
    (codeRoundOps 0).count KOp.conv = 1 ∧
      codeRoundOps 0 = [KOp.theta, KOp.rho, KOp.pi, KOp.xi, KOp.iota 0, KOp.conv] ∧
      (codeRoundOps 23).count KOp.conv = 0 :=
  conv_once_per_nonfinal_round 0 (by decide)

theorem chainRel_iff (fs : List (KState → KState)) (s out : KState) :
    chainRel fs s out ↔ out = fs.foldl (fun a f => f a) s := by
  induction fs generalizing s with
  | nil => simp [chainRel]
  | cons f fs ih =>
    constructor
    · rintro ⟨t, rfl, h⟩
      simpa [List.foldl_cons] using (ih _).mp h
    · intro h
      exact ⟨f s, rfl, (ih _).mpr (by simpa [List.foldl_cons] using h)⟩

/-- C2: for every input state, mixing flag and next-block assignment, the
constraint relation of the circuit is satisfiable for a claimed output state
exactly when that output equals the recomputed result of `assign_all`: a
differing claimed output makes the relation unsatisfiable, the matching one
makes it satisfiable. -/
theorem output_tamper_detection (sIn : KState) (flag : Bool) (next : List Nat)
    (out : KState) :
    circuitRel sIn flag next out ↔ out = assign_all sIn flag next := by
  rw [circuitRel, chainRel_iff, assign_all, List.foldl_map]

theorem stageDenote_eq_of_ne_mix (flag flag' : Bool) (next next' : List Nat)
    (op : KOp) (h : op ≠ KOp.mix) :
    stageDenote flag next op = stageDenote flag' next' op := by
  cases op <;> first | rfl | exact absurd rfl h

theorem foldl_stageDenote_congr (flag : Bool) (next : List Nat) (l : List KOp)
    (h : KOp.mix ∉ l) (s : KState) :
    l.foldl (fun a op => stageDenote flag next op a) s =
      l.foldl (fun a op => stageDenote false [] op a) s := by
  induction l generalizing s with
  | nil => rfl
  | cons op t ih =>
    have h1 : op ≠ KOp.mix := fun he => h (he ▸ List.mem_cons_self op t)
    have h2 : KOp.mix ∉ t := fun hm => h (List.mem_cons_of_mem _ hm)
    simp only [List.foldl_cons]
    rw [stageDenote_eq_of_ne_mix flag false next [] op h1]
    exact ih h2 _

/-- C6: with MixingFlag = false the circuit's output is exactly the result of
completing round 23's deferred Iota — the base-9 Iota with the last round
constant applied to the raw state the 24 controller rounds produced — and no
absorption is performed: the result does not depend on the supplied
next-block lanes at all (the right-hand side never mentions them). -/
theorem finalize_completes_deferred_iota (s : KState) (next : List Nat) :
    assign_all s false next = iotaB9 23 (permRounds s) := by
  have hnm : KOp.mix ∉ ((List.range PERMUTATION).map codeRoundOps).flatten := by decide
  rw [assign_all, assignAllOps, List.foldl_append]
  simp only [List.foldl_cons, List.foldl_nil]
  rw [foldl_stageDenote_congr false next _ hnm]
  rfl

/-- C4: the boolean constraint the mixing gate places on the flag is
satisfied by a field element exactly when it is 0 or 1; every other field
value violates it. -/
theorem mixing_flag_boolean {F : Type _} [Field F] (f : F) :
    mixingFlagConstraint f ↔ f = 0 ∨ f = 1 := by
  unfold mixingFlagConstraint
  constructor
  · intro h
    have h2 : f * (f - 1) = 0 := by
      rw [mul_sub, mul_one, h, sub_self]
    rcases mul_eq_zero.mp h2 with h3 | h3
    · exact Or.inl h3
    · exact Or.inr (sub_eq_zero.mp h3)
  · rintro (rfl | rfl) <;> simp

/-- C8: every digit of every lane of the externally supplied input state (as
the test encodes it, lane-wise through `convert_b2_to_b13`) lies in the
base-13 alphabet, and the first stage of the circuit that consumes that
state is Theta. -/
theorem input_state_base13 (ws : List Nat) (l : Lane) (d : Nat)
    (hl : l ∈ encodeStateB13 ws) (hd : d ∈ l) :
    d < 13 ∧ assignAllOps.head? = some KOp.theta := by
  refine ⟨?_, by decide⟩
  rcases List.mem_map.mp hl with ⟨w, _, rfl⟩
  simp only [convert_b2_to_b13, laneBitsOfWord] at hd
  rcases List.mem_map.mp hd with ⟨i, _, rfl⟩
  have h2 : w / 2 ^ i % 2 < 2 := Nat.mod_lt _ (by norm_num)
  omega

/-- Witness for C8 at the one-word state [3]. -/
theorem input_state_base13_witness :
    1 < 13 ∧ assignAllOps.head? = some KOp.theta :=
  input_state_base13 [3] (convert_b2_to_b13 3) 1 (by decide) (by decide)

/-- C9: the base-9 Iota step changes only lane (0,0) of a 25-lane state —
adding the round's pre-encoded base-9 constant to it digit-wise — and
returns every other lane exactly as it was produced by Xi. -/
theorem iota_frame (s : KState) (i j : Nat) (hlen : s.length = 25) (hj : j < 25)
    (hj0 : j ≠ 0) :
    (iotaB9 i s).getD j zeroLane = s.getD j zeroLane ∧
    (iotaB9 i s).getD 0 zeroLane =
      digitAdd (s.getD 0 zeroLane)
        (scaleLane 2 (laneBitsOfWord (ROUND_CONSTANTS.getD i 0))) := by
  constructor
  · rw [iotaB9, List.getD_eq_getElem?_getD,
      List.getElem?_set_ne (show 0 ≠ j by omega), ← List.getD_eq_getElem?_getD]
  · rw [iotaB9, List.getD_eq_getElem?_getD,
      List.getElem?_set_self (show 0 < s.length by omega)]
    rfl

/-- Witness for C9 on the all-zero state, round 0, lane index 1. -/
theorem iota_frame_witness :
    (iotaB9 0 zeroState).getD 1 zeroLane = zeroState.getD 1 zeroLane ∧
    (iotaB9 0 zeroState).getD 0 zeroLane =
      digitAdd (zeroState.getD 0 zeroLane)
        (scaleLane 2 (laneBitsOfWord (ROUND_CONSTANTS.getD 0 0))) :=
  iota_frame zeroState 0 1 (by decide) (by decide) (by decide)

theorem convB9Coef_add_two_mul (d b : Nat) (hb : b ≤ 1) :
    convB9Coef (d + 2 * b) = (convB9Coef d + b) % 2 := by
  simp only [convB9Coef]
  split <;> split <;> omega

theorem mod_two_convB9Coef (d : Nat) : convB9Coef d % 2 = convB9Coef d := by
  simp only [convB9Coef]
  split <;> rfl

theorem laneBits13_laneBits9 (l : Lane) : laneBits13 (laneBits9 l) = laneBits9 l := by
  unfold laneBits13 laneBits9
  rw [List.map_map]
  exact List.map_congr_left fun d _ => mod_two_convB9Coef d

theorem laneBits9_digitAdd_scale2 (l b : Lane) (hb : ∀ x ∈ b, x ≤ 1) :
    laneBits9 (digitAdd l (scaleLane 2 b)) = xorBits (laneBits9 l) b := by
  induction l generalizing b with
  | nil => cases b <;> rfl
  | cons d t ih =>
    cases b with
    | nil => rfl
    | cons x xs =>
      have hx : x ≤ 1 := hb x (List.mem_cons_self x xs)
      have hxs : ∀ y ∈ xs, y ≤ 1 := fun y hy => hb y (List.mem_cons_of_mem _ hy)
      simp only [digitAdd, scaleLane, laneBits9, xorBits, List.map_cons,
        List.zipWith_cons_cons]
      exact congrArg₂ List.cons (convB9Coef_add_two_mul d x hx) (ih xs hxs)

theorem laneBits13_digitAdd_bits (l r : Lane) (hr : ∀ x ∈ r, x ≤ 1) :
    laneBits13 (digitAdd l r) = xorBits (laneBits13 l) r := by
  induction l generalizing r with
  | nil => cases r <;> rfl
  | cons d t ih =>
    cases r with
    | nil => rfl
    | cons x xs =>
      have hxs : ∀ y ∈ xs, y ≤ 1 := fun y hy => hr y (List.mem_cons_of_mem _ hy)
      simp only [digitAdd, laneBits13, xorBits, List.map_cons, List.zipWith_cons_cons]
      exact congrArg₂ List.cons (by omega) (ih xs hxs)

theorem laneBits13_xorBits (a b : Lane) : laneBits13 (xorBits a b) = xorBits a b := by
  induction a generalizing b with
  | nil => cases b <;> rfl
  | cons x xs ih =>
    cases b with
    | nil => rfl
    | cons y ys =>
      simp only [xorBits, laneBits13, List.zipWith_cons_cons, List.map_cons]
      exact congrArg₂ List.cons (by omega) (ih ys)

theorem xorBits_right_comm (a b c : Lane) :
    xorBits (xorBits a b) c = xorBits (xorBits a c) b := by
  induction a generalizing b c with
  | nil => cases b <;> cases c <;> rfl
  | cons x xs ih =>
    cases b with
    | nil => cases c <;> rfl
    | cons y ys =>
      cases c with
      | nil => rfl
      | cons z zs =>
        simp only [xorBits, List.zipWith_cons_cons]
        exact congrArg₂ List.cons (by omega) (ih ys zs)

theorem getD_range_map {α : Type _} (n j : Nat) (g : Nat → α) (d : α) (h : j < n) :
    ((List.range n).map g).getD j d = g j := by
  rw [List.getD_eq_getElem?_getD, List.getElem?_map, List.getElem?_range h]
  rfl

theorem getD_set_zero_ne {α : Type _} (l : List α) (v d : α) (j : Nat) (h : j ≠ 0) :
    (l.set 0 v).getD j d = l.getD j d := by
  rw [List.getD_eq_getElem?_getD, List.getElem?_set_ne (Ne.symm h),
    ← List.getD_eq_getElem?_getD]

theorem getD_set_zero_self {α : Type _} (l : List α) (v d : α) (h : 0 < l.length) :
    (l.set 0 v).getD 0 d = v := by
  rw [List.getD_eq_getElem?_getD, List.getElem?_set_self h]
  rfl

theorem laneBitsOfWord_le_one (w : Nat) : ∀ x ∈ laneBitsOfWord w, x ≤ 1 := by
  intro x hx
  simp only [laneBitsOfWord] at hx
  rcases List.mem_map.mp hx with ⟨i, _, rfl⟩
  omega

theorem absorb_length (next : List Nat) (s : KState) : (absorb next s).length = 25 := by
  simp [absorb]

theorem getD_convB9to13 (s : KState) (j : Nat) (h : j < s.length) :
    (convB9to13 s).getD j zeroLane = laneBits9 (s.getD j zeroLane) := by
  rw [convB9to13, List.getD_eq_getElem?_getD, List.getElem?_map,
    List.getElem?_eq_getElem h, List.getD_eq_getElem _ _ h]
  rfl

/-- Counterexample for C5: on the all-zero round-23 state with an all-zero
next block, the output's rate lane (0,0) does not equal the XOR of the raw
round-23 lane with the next-block lane: the mixing gate additionally injects
the last round constant into that lane, so the as-stated equality fails. -/
theorem absorb_not_raw_xor_at_lane0 :
    ¬ laneBits13 ((mixStage true (List.replicate 17 0) zeroState).getD 0 zeroLane) =
        xorBits (laneBits9 (zeroState.getD 0 zeroLane))
          (laneBitsOfWord ((List.replicate 17 (0 : Nat)).getD 0 0)) := by
  decide

/-- C5 (amended): with MixingFlag = true, each of the 17 rate lanes of the
final output equals — bit for bit — the XOR of the corresponding lane of the
finalize path (the completed round-23 output, i.e. what MixingFlag = false
would produce, including the deferred Iota on lane (0,0)) with the
corresponding next-block lane, and every non-rate lane equals the finalize
path's lane unchanged. -/
theorem absorb_xor_after_finalize (s : KState) (next : List Nat) (j : Nat)
    (hlen : s.length = 25) (hj : j < 25) :
    laneBits13 ((mixStage true next s).getD j zeroLane) =
      if j < 17 then
        xorBits (laneBits9 ((mixStage false next s).getD j zeroLane))
          (laneBitsOfWord (next.getD j 0))
      else laneBits9 ((mixStage false next s).getD j zeroLane) := by
  have hA : (absorb next s).length = 25 := absorb_length next s
  have hC : (convB9to13 (absorb next s)).length = 25 := by
    simp [convB9to13, hA]
  have hT : mixStage true next s = iotaB13 23 (convB9to13 (absorb next s)) := rfl
  have hF : mixStage false next s = iotaB9 23 s := rfl
  rw [hT, hF]
  by_cases hj0 : j = 0
  · subst hj0
    rw [if_pos (by omega : (0:Nat) < 17)]
    simp only [iotaB13, iotaB9]
    rw [getD_set_zero_self _ _ _ (by omega), getD_set_zero_self _ _ _ (by omega),
      getD_convB9to13 _ _ (by omega)]
    rw [show (absorb next s).getD 0 zeroLane =
        digitAdd (s.getD 0 zeroLane) (scaleLane 2 (laneBitsOfWord (next.getD 0 0))) by
      rw [absorb, getD_range_map _ _ _ _ (by omega : (0:Nat) < 25)]
      rfl]
    rw [laneBits13_digitAdd_bits _ _ (laneBitsOfWord_le_one _),
      laneBits9_digitAdd_scale2 _ _ (laneBitsOfWord_le_one _),
      laneBits9_digitAdd_scale2 _ _ (laneBitsOfWord_le_one _),
      laneBits13_xorBits, xorBits_right_comm]
  · simp only [iotaB13, iotaB9]
    rw [getD_set_zero_ne _ _ _ _ hj0, getD_set_zero_ne _ _ _ _ hj0,
      getD_convB9to13 _ _ (by omega), absorb, getD_range_map _ _ _ _ hj]
    by_cases hrate : j < 17
    · rw [if_pos hrate, if_pos hrate,
        laneBits9_digitAdd_scale2 _ _ (laneBitsOfWord_le_one _), laneBits13_xorBits]
    · rw [if_neg hrate, if_neg hrate, laneBits13_laneBits9]

/-- Witness for C5 (amended) at the all-zero round-23 state, next block all
ones, rate lane 3. -/
theorem absorb_xor_after_finalize_witness :
    laneBits13 ((mixStage true (List.replicate 17 1) zeroState).getD 3 zeroLane) =
      if 3 < 17 then
        xorBits (laneBits9 ((mixStage false (List.replicate 17 1) zeroState).getD 3 zeroLane))
          (laneBitsOfWord ((List.replicate 17 (1 : Nat)).getD 3 0))
      else laneBits9 ((mixStage false (List.replicate 17 1) zeroState).getD 3 zeroLane) :=
  absorb_xor_after_finalize zeroState (List.replicate 17 1) 3 (by decide) (by decide)

end KeccakCircuit

namespace AbsWord

theorem byteVal_lt (l : List Nat) (h : ∀ b ∈ l, b < 256) :
    byteVal l < 256 ^ l.length := by
  induction l with
  | nil => simp [byteVal]
  | cons b bs ih =>
    have hb := h b (List.mem_cons_self b bs)
    have hbs := ih fun y hy => h y (List.mem_cons_of_mem _ hy)
    simp only [byteVal, List.length_cons]
    calc b + 256 * byteVal bs < 256 * (byteVal bs + 1) := by omega
      _ ≤ 256 * 256 ^ bs.length := Nat.mul_le_mul_left _ hbs
      _ = 256 ^ (bs.length + 1) := by ring

theorem byteVal_append (a b : List Nat) :
    byteVal (a ++ b) = byteVal a + 256 ^ a.length * byteVal b := by
  induction a with
  | nil => simp [byteVal]
  | cons x xs ih =>
    simp only [List.cons_append, byteVal, List.length_cons, List.append_eq, ih]
    ring

theorem wordVal_split (l : List Nat) (h : l.length = 32) :
    wordVal l = loVal l + 2 ^ 128 * hiVal l := by
  have h1 : (l.take 16).length = 16 := by
    rw [List.length_take]
    omega
  conv_lhs => rw [wordVal, ← List.take_append_drop 16 l]
  rw [byteVal_append, h1, loVal, hiVal]
  norm_num

theorem loVal_lt (l : List Nat) (h : ∀ b ∈ l, b < 256) : loVal l < 2 ^ 128 := by
  have h1 := byteVal_lt (l.take 16) fun b hb => h b (List.take_subset 16 l hb)
  have hlen : (l.take 16).length ≤ 16 := by
    rw [List.length_take]
    exact min_le_left _ _
  calc loVal l < 256 ^ (l.take 16).length := h1
    _ ≤ 256 ^ 16 := Nat.pow_le_pow_right (by norm_num) hlen
    _ = 2 ^ 128 := by norm_num

theorem hiVal_lt (l : List Nat) (h : ∀ b ∈ l, b < 256) (hl : l.length = 32) :
    hiVal l < 2 ^ 128 := by
  have h1 := byteVal_lt (l.drop 16) fun b hb => h b (List.drop_subset 16 l hb)
  have hlen : (l.drop 16).length = 16 := by
    rw [List.length_drop, hl]
  rw [hiVal]
  calc byteVal (l.drop 16) < 256 ^ (l.drop 16).length := h1
    _ = 2 ^ 128 := by rw [hlen]; norm_num

theorem natBytes_length (k n : Nat) : (natBytes k n).length = k := by
  induction k generalizing n with
  | zero => rfl
  | succ k ih => simp [natBytes, ih]

theorem natBytes_lt (k n : Nat) : ∀ b ∈ natBytes k n, b < 256 := by
  induction k generalizing n with
  | zero => simp [natBytes]
  | succ k ih =>
    intro b hb
    simp only [natBytes, List.mem_cons] at hb
    rcases hb with rfl | hb
    · omega
    · exact ih _ b hb

theorem byteVal_natBytes (k n : Nat) : byteVal (natBytes k n) = n % 256 ^ k := by
  induction k generalizing n with
  | zero => simp [natBytes, byteVal, Nat.mod_one]
  | succ k ih =>
    simp only [natBytes, byteVal, ih]
    rw [show (256 : Nat) ^ (k + 1) = 256 * 256 ^ k by ring, Nat.mod_mul]

theorem loVal_natBytes_append (m n : Nat) :
    loVal (natBytes 16 m ++ natBytes 16 n) = m % 2 ^ 128 := by
  rw [loVal, List.take_left' (natBytes_length 16 m), byteVal_natBytes]
  norm_num

theorem hiVal_natBytes_append (m n : Nat) :
    hiVal (natBytes 16 m ++ natBytes 16 n) = n % 2 ^ 128 := by
  rw [hiVal, List.drop_left' (natBytes_length 16 m), byteVal_natBytes]
  norm_num

/-- C10: for byte-range-checked words `x` and `x_abs`, the AbsWordGadget
constraint system is satisfiable exactly when `x_abs` is the absolute value
of `x` read as a signed 256-bit two's-complement word: if byte 31 of `x` is
at most 127 the constraints force `x_abs = x`, and if byte 31 exceeds 127
they force `x + x_abs = 2^256` (wrapping sum zero with high carry one),
i.e. `x_abs` is the two's-complement negation of `x`. -/
theorem abs_word_correct (x xabs : List Nat) (hx : isBytes x) (hxa : isBytes xabs) :
    AbsWordRel x xabs ↔
      (x.getD 31 0 ≤ 127 ∧ wordVal xabs = wordVal x) ∨
      (127 < x.getD 31 0 ∧ wordVal x + wordVal xabs = 2 ^ 256) := by
  obtain ⟨hxl, hxb⟩ := hx
  obtain ⟨hxal, hxab⟩ := hxa
  have hsx := wordVal_split x hxl
  have hsxa := wordVal_split xabs hxal
  have hlox := loVal_lt x hxb
  have hloxa := loVal_lt xabs hxab
  have hhix := hiVal_lt x hxb hxl
  have hhixa := hiVal_lt xabs hxab hxal
  constructor
  · rintro ⟨s, cl, ch, neg, hsl, hsb, hcl, hch, hneg, hnegiff, hp1, hp2, he1, he2, hn1, hn2⟩
    have hss := wordVal_split s hsl
    have hlos := loVal_lt s hsb
    have hhis := hiVal_lt s hsb hsl
    by_cases h31 : 127 < x.getD 31 0
    · right
      refine ⟨h31, ?_⟩
      have hni : neg = 1 := hnegiff.mpr h31
      subst hni
      push_cast at hn1 hn2
      norm_num at hn1 hn2
      have hs0 : wordVal s = 0 := by exact_mod_cast hn1
      have hch1 : ch = 1 := by omega
      subst hch1
      omega
    · left
      have hn0 : neg = 0 := by
        rcases Nat.lt_or_ge neg 1 with h | h
        · omega
        · exfalso
          exact h31 (hnegiff.mp (by omega))
      subst hn0
      push_cast at hp1 hp2
      norm_num [sub_eq_zero] at hp1 hp2
      have hlo : loVal xabs = loVal x := by exact_mod_cast hp1
      have hhi : hiVal xabs = hiVal x := by exact_mod_cast hp2
      exact ⟨by omega, by omega⟩
  · intro hcase
    refine ⟨natBytes 16 ((loVal x + loVal xabs) % 2 ^ 128) ++
        natBytes 16 ((hiVal x + hiVal xabs + (loVal x + loVal xabs) / 2 ^ 128) % 2 ^ 128),
      (loVal x + loVal xabs) / 2 ^ 128,
      (hiVal x + hiVal xabs + (loVal x + loVal xabs) / 2 ^ 128) / 2 ^ 128,
      if 127 < x.getD 31 0 then 1 else 0,
      ?_, ?_, ?_, ?_, ?_, ?_, ?_, ?_, ?_, ?_, ?_, ?_⟩
    · simp [List.length_append, natBytes_length]
    · intro b hb
      rcases List.mem_append.mp hb with h | h
      · exact natBytes_lt _ _ b h
      · exact natBytes_lt _ _ b h
    · omega
    · omega
    · split <;> omega
    · split <;> simp_all
    · rcases hcase with ⟨h31, heq⟩ | ⟨h31, _⟩
      · rw [if_neg (by omega)]
        have hlo : loVal xabs = loVal x := by omega
        rw [hlo]
        push_cast
        ring
      · rw [if_pos h31]
        push_cast
        ring
    · rcases hcase with ⟨h31, heq⟩ | ⟨h31, _⟩
      · rw [if_neg (by omega)]
        have hhi : hiVal xabs = hiVal x := by omega
        rw [hhi]
        push_cast
        ring
      · rw [if_pos h31]
        push_cast
        ring
    · rw [loVal_natBytes_append]
      push_cast
      omega
    · rw [hiVal_natBytes_append]
      push_cast
      omega
    · rcases hcase with ⟨h31, _⟩ | ⟨h31, hsum⟩
      · rw [if_neg (by omega)]
        push_cast
        ring
      · rw [if_pos h31]
        have hw : wordVal (natBytes 16 ((loVal x + loVal xabs) % 2 ^ 128) ++
            natBytes 16 ((hiVal x + hiVal xabs + (loVal x + loVal xabs) / 2 ^ 128) % 2 ^ 128)) = 0 := by
          rw [wordVal_split _ (by simp [List.length_append, natBytes_length]),
            loVal_natBytes_append, hiVal_natBytes_append]
          omega
        rw [hw]
        norm_num
    · rcases hcase with ⟨h31, _⟩ | ⟨h31, hsum⟩
      · rw [if_neg (by omega)]
        push_cast
        ring
      · rw [if_pos h31]
        have hch : (hiVal x + hiVal xabs + (loVal x + loVal xabs) / 2 ^ 128) / 2 ^ 128 = 1 := by
          omega
        rw [hch]
        norm_num

/-- Witness for C10 at the all-zero word pair. -/
theorem abs_word_correct_witness :
    isBytes (List.replicate 32 0) ∧
      (AbsWordRel (List.replicate 32 0) (List.replicate 32 0) ↔
        ((List.replicate 32 (0 : Nat)).getD 31 0 ≤ 127 ∧
            wordVal (List.replicate 32 0) = wordVal (List.replicate 32 0)) ∨
        (127 < (List.replicate 32 (0 : Nat)).getD 31 0 ∧
            wordVal (List.replicate 32 0) + wordVal (List.replicate 32 0) = 2 ^ 256)) :=
  ⟨⟨by decide, by decide⟩,
    abs_word_correct (List.replicate 32 0) (List.replicate 32 0)
      ⟨by decide, by decide⟩ ⟨by decide, by decide⟩⟩

end AbsWord
